import Mathlib

set_option maxRecDepth 1000000

/-!
# Verification of the pyverifactu record model, fingerprint engine and codecs

Shallow embedding of the core of the `pyverifactu` library: the record
data model and its validators (`verifactu/models/records/*.py`), the
SHA-256 fingerprint engine (`calculate_hash` on registration and
cancellation records), and the XML response decoders
(`verifactu/models/responses/*.py`).

Conventions of the embedding:

* Monetary amounts are kept as the decimal strings the library carries
  (`"12.10"`); the comparison arithmetic that the source performs on
  Python 64-bit floats is modelled with exact integer arithmetic on
  cent / ten-thousandth units plus round-half-to-even formatting.  The
  exact model provably coincides with the binary64 computation on
  bounded domains (every accumulated rounding error is below `10⁻³` of
  a `10⁻⁴`-cent tick while every rounding decision is at least one tick
  away); the quantified theorems below carry those domain bounds as
  hypotheses, and where an exactly-zero sum leaves the float residual's
  sign unpredictable the totals check accepts both rendered signs, so
  that it stays a superset of the source's acceptance on the domain.
* Python `datetime` values are modelled as wall-clock fields plus an
  optional UTC offset in seconds; the process-wide facts that
  `time.daylight`, `time.localtime().tm_isdst`, `time.timezone` and
  `time.altzone` report are gathered in a `TzEnv` record passed
  explicitly.
* SHA-256 is implemented directly over byte lists (Nat valued) so that
  fingerprints compute inside the logic.
-/

namespace Verifactu

/-! ## Bit operations on 32-bit words represented as `Nat` -/

def w32 (x : Nat) : Nat := x % 4294967296

def rotr (n x : Nat) : Nat := w32 ((x >>> n) ||| (x <<< (32 - n)))

def add32 (a b : Nat) : Nat := (a + b) % 4294967296

def bsig0 (x : Nat) : Nat := (rotr 2 x) ^^^ (rotr 13 x) ^^^ (rotr 22 x)

def bsig1 (x : Nat) : Nat := (rotr 6 x) ^^^ (rotr 11 x) ^^^ (rotr 25 x)

def ssig0 (x : Nat) : Nat := (rotr 7 x) ^^^ (rotr 18 x) ^^^ (x >>> 3)

def ssig1 (x : Nat) : Nat := (rotr 17 x) ^^^ (rotr 19 x) ^^^ (x >>> 10)

def chF (x y z : Nat) : Nat := (x &&& y) ^^^ ((x ^^^ 4294967295) &&& z)

def majF (x y z : Nat) : Nat := (x &&& y) ^^^ (x &&& z) ^^^ (y &&& z)

/-! ## SHA-256 core -/

def shaK : List Nat :=
  [1116352408, 1899447441, 3049323471, 3921009573,
   961987163, 1508970993, 2453635748, 2870763221,
   3624381080, 310598401, 607225278, 1426881987,
   1925078388, 2162078206, 2614888103, 3248222580,
   3835390401, 4022224774, 264347078, 604807628,
   770255983, 1249150122, 1555081692, 1996064986,
   2554220882, 2821834349, 2952996808, 3210313671,
   3336571891, 3584528711, 113926993, 338241895,
   666307205, 773529912, 1294757372, 1396182291,
   1695183700, 1986661051, 2177026350, 2456956037,
   2730485921, 2820302411, 3259730800, 3345764771,
   3516065817, 3600352804, 4094571909, 275423344,
   430227734, 506948616, 659060556, 883997877,
   958139571, 1322822218, 1537002063, 1747873779,
   1955562222, 2024104815, 2227730452, 2361852424,
   2428436474, 2756734187, 3204031479, 3329325298]

def shaH0 : List Nat :=
  [1779033703, 3144134277, 1013904242, 2773480762,
   1359893119, 2600822924, 528734635, 1541459225]

/-- Extend a 16-word block to the 64-word message schedule. -/
def shaSchedule (steps : Nat) (w : List Nat) : List Nat :=
  match steps with
  | 0 => w
  | s + 1 =>
      let n := w.length
      let x := w32 (ssig1 (w.getD (n - 2) 0) + w.getD (n - 7) 0 +
        ssig0 (w.getD (n - 15) 0) + w.getD (n - 16) 0)
      shaSchedule s (w ++ [x])

/-- One round of the SHA-256 compression function; the state is the list
`[a, b, c, d, e, f, g, h]`. -/
def shaRound (st : List Nat) (kw : Nat × Nat) : List Nat :=
  match st with
  | [a, b, c, d, e, f, g, h] =>
      let t1 := w32 (h + bsig1 e + chF e f g + kw.1 + kw.2)
      let t2 := w32 (bsig0 a + majF a b c)
      [w32 (t1 + t2), a, b, c, w32 (d + t1), e, f, g]
  | other => other

/-- Process one 64-word-scheduled block, starting from hash state `h`. -/
def shaBlock (h : List Nat) (block : List Nat) : List Nat :=
  let w := shaSchedule 48 block
  let st := (shaK.zip w).foldl shaRound h
  (h.zip st).map fun p => add32 p.1 p.2

/-- Big-endian conversion of a list of bytes into 32-bit words (the byte
count must be a multiple of 4). -/
def bytesToWords : List Nat → List Nat
  | b0 :: b1 :: b2 :: b3 :: rest =>
      (((b0 <<< 8 ||| b1) <<< 8 ||| b2) <<< 8 ||| b3) :: bytesToWords rest
  | _ => []

/-- Split a word list into `n` chunks of 16. -/
def chunkWords : Nat → List Nat → List (List Nat)
  | 0, _ => []
  | n + 1, ws => ws.take 16 :: chunkWords n (ws.drop 16)

/-- SHA-256 padding: append `0x80`, zeros to 56 mod 64, then the bit
length as a 64-bit big-endian integer. -/
def shaPad (msg : List Nat) : List Nat :=
  let len := msg.length
  let zeros := (64 + 55 - len % 64) % 64
  let bitLen := len * 8
  msg ++ [0x80] ++ List.replicate zeros 0 ++
    (List.range 8).map fun i => (bitLen >>> ((7 - i) * 8)) % 256

/-- SHA-256 digest of a byte list, as a list of 32 bytes. -/
def sha256 (msg : List Nat) : List Nat :=
  let ws := bytesToWords (shaPad msg)
  let blocks := chunkWords (ws.length / 16) ws
  let h := blocks.foldl shaBlock shaH0
  h.flatMap fun word => (List.range 4).map fun i => (word >>> ((3 - i) * 8)) % 256

def hexDigitU (n : Nat) : Char :=
  if n < 10 then Char.ofNat (48 + n) else Char.ofNat (55 + n)

/-- Uppercase hexadecimal rendering of a byte list
(`hashlib.sha256(...).hexdigest().upper()`). -/
def bytesToHexU (bs : List Nat) : String :=
  ⟨bs.flatMap fun b => [hexDigitU (b / 16), hexDigitU (b % 16)]⟩

/-- UTF-8 encoding of one character (`str.encode("utf-8")`). -/
def utf8Char (c : Char) : List Nat :=
  let n := c.toNat
  if n < 0x80 then [n]
  else if n < 0x800 then
    [0xC0 ||| (n >>> 6), 0x80 ||| (n &&& 0x3F)]
  else if n < 0x10000 then
    [0xE0 ||| (n >>> 12), 0x80 ||| ((n >>> 6) &&& 0x3F), 0x80 ||| (n &&& 0x3F)]
  else
    [0xF0 ||| (n >>> 18), 0x80 ||| ((n >>> 12) &&& 0x3F),
     0x80 ||| ((n >>> 6) &&& 0x3F), 0x80 ||| (n &&& 0x3F)]

/-- UTF-8 byte encoding of a string. -/
def strBytes (s : String) : List Nat := s.data.flatMap utf8Char

/-- `hashlib.sha256(payload.encode("utf-8")).hexdigest().upper()`. -/
def sha256HexU (payload : String) : String := bytesToHexU (sha256 (strBytes payload))

/-! ## Decimal rendering and parsing

The library carries monetary amounts as decimal strings with exactly two
fractional digits (regex `^-?\d{1,12}\.\d{2}$`), converts them with
Python `float(...)` for comparisons, and re-renders expected values with
`f"{x:.2f}"`.  The embedding keeps the strings and models the float
comparison arithmetic exactly, in integer cent / ten-thousandth-of-a-cent
units, with round-half-to-even formatting (the rounding `f"{x:.2f}"`
performs); this agrees with the source away from exact half-cent ties,
where binary floating point makes the source's rounding direction
value-dependent. -/

/-- Little-endian decimal digits of `n`, with explicit fuel so that the
definition reduces by `rfl`/`decide`; correct whenever `n < fuel`. -/
def digitsRevFuel : Nat → Nat → List Nat
  | 0, _ => []
  | fuel + 1, n => if n < 10 then [n] else n % 10 :: digitsRevFuel fuel (n / 10)

/-- Value of a little-endian digit list. -/
def valRev : List Nat → Nat
  | [] => 0
  | d :: ds => d + 10 * valRev ds

/-- ASCII digit character for a value `< 10`. -/
def digitCh (d : Nat) : Char := Char.ofNat (48 + d)

/-- Decimal rendering of a natural number without leading zeros
(Python `str(n)` / the integer part of `f"{x:.2f}"`). -/
def renderNatChars (n : Nat) : List Char :=
  ((digitsRevFuel (n + 1) n).reverse).map digitCh

def isDigitC (c : Char) : Bool := 48 ≤ c.toNat && c.toNat ≤ 57

def charVal (c : Char) : Nat := c.toNat - 48

/-- Two-fraction-digit decimal parser over a character list: the integer
part has between 1 and `maxInt` digits, then a dot, then exactly two
digits.  Returns the value in cents. -/
def parseDecimal2 (maxInt : Nat) (cs : List Char) : Option Nat :=
  match cs.reverse with
  | f2 :: f1 :: dot :: revInt =>
      if dot = '.' ∧ revInt ≠ [] ∧ revInt.length ≤ maxInt ∧
          revInt.all isDigitC ∧ isDigitC f1 ∧ isDigitC f2 then
        some (valRev (revInt.map charVal) * 100 + (charVal f1 * 10 + charVal f2))
      else none
  | _ => none

def negCents : Option Nat → Option Int
  | some v => some (-(v : Int))
  | none => none

def posCents : Option Nat → Option Int
  | some v => some ((v : Int))
  | none => none

def parseAmountChars : List Char → Option Int
  | [] => none
  | c :: cs =>
      if c = '-' then negCents (parseDecimal2 12 cs)
      else posCents (parseDecimal2 12 (c :: cs))

/-- Parser for the amount format `^-?\d{1,12}\.\d{2}$`
(`RegistrationRecord.validate_amount_format` and friends), returning the
value in cents. -/
def parseAmount (s : String) : Option Int := parseAmountChars s.data

/-- Parser for the tax-rate format `^\d{1,3}\.\d{2}$`
(`BreakdownDetails.validate_tax_rate`), returning the value in
hundredths of a percentage point. -/
def parseRate (s : String) : Option Nat := parseDecimal2 3 s.data

/-- The string `f"{x:.2f}"` produces for the exact value `n / 100`
(used when that value is a whole number of cents). -/
def centsToString (n : Int) : String :=
  let a := n.natAbs
  ⟨(if n < 0 then ['-'] else []) ++ renderNatChars (a / 100) ++
    '.' :: [digitCh (a % 100 / 10), digitCh (a % 100 % 10)]⟩

/-! ## Round-half-even formatting of products

`f"{x:.2f}"` for an exact value `q / 10^4` cents (i.e. `q / 10^6`
monetary units): round to a whole number of cents, halves to even, and
keep the sign for negative values that round to zero (Python renders
those as `"-0.00"`). -/

/-- Round `q / 10^4` (a value in 10⁻⁴-cent units) to a whole number of
cents, halves to even. -/
def rheCents (q : Int) : Int :=
  if q % 10000 < 5000 then q / 10000
  else if 5000 < q % 10000 then q / 10000 + 1
  else if (q / 10000) % 2 = 0 then q / 10000 else q / 10000 + 1

/-- `f"{x:.2f}"` for the exact value `q / 10^6` monetary units
(`q` in `10⁻⁴`-cent ticks): round to a whole cent, halves to even, and
keep the sign for negative values that round to zero (Python renders
those as `"-0.00"`).  This models the formatting of the binary64
product; the two agree whenever the double is closer to the exact value
than the exact value is to a rounding boundary — for `|q| ≤ 10^12` the
accumulated float error is below `10⁻³` of a tick, so agreement holds
whenever `q` is a nonzero non-half-cent-tie integer (the hypotheses the
tax-tolerance theorem carries). -/
def fmtMicro (q : Int) : String :=
  let n := rheCents q
  if q < 0 ∧ n = 0 then "-0.00" else centsToString n

/-! ## Datetimes and the local-timezone environment

A Python `datetime` is wall-clock fields plus an optional fixed UTC
offset (seconds); sub-second precision never reaches a payload (both
`calculate_hash` and the XML export format with `%Y-%m-%dT%H:%M:%S`).
The process-wide values `time.daylight`, `time.localtime().tm_isdst`,
`-time.timezone` and `-time.altzone` that the source consults when a
timestamp is naive are passed explicitly as a `TzEnv`. -/

structure DateTimeM where
  year : Nat
  month : Nat
  day : Nat
  hour : Nat := 0
  minute : Nat := 0
  second : Nat := 0
  /-- UTC offset in seconds (`tzinfo`), `none` for a naive datetime. -/
  tzOffset : Option Int := none
deriving DecidableEq, Repr

/-- The local-timezone facts of the running process, as read from the
`time` module: `daylight` (a DST timezone is defined), the *current*
value of `localtime().tm_isdst`, and the standard / DST UTC offsets in
seconds (`-time.timezone`, `-time.altzone`). -/
structure TzEnv where
  daylight : Bool
  nowIsDst : Bool
  stdOffset : Int
  dstOffset : Int
deriving DecidableEq, Repr

/-- Fixed-width zero-padded decimal rendering (`%02d` / `%04d`). -/
def padNum (w n : Nat) : List Char :=
  let ds := renderNatChars n
  List.replicate (w - ds.length) '0' ++ ds

/-- `dt.strftime('%d-%m-%Y')`. -/
def fmtDateDDMMYYYY (dt : DateTimeM) : String :=
  ⟨padNum 2 dt.day ++ '-' :: padNum 2 dt.month ++ '-' :: padNum 4 dt.year⟩

/-- `dt.strftime('%Y-%m-%dT%H:%M:%S')`. -/
def fmtDateTimeBody (dt : DateTimeM) : String :=
  ⟨padNum 4 dt.year ++ '-' :: padNum 2 dt.month ++ '-' :: padNum 2 dt.day ++
    'T' :: padNum 2 dt.hour ++ ':' :: padNum 2 dt.minute ++ ':' :: padNum 2 dt.second⟩

/-- The `±HH:MM` suffix the source builds from `dt.utcoffset()` with
`divmod(abs(total_seconds), 3600)`. -/
def fmtOffset (offset : Int) : String :=
  let sign := if 0 ≤ offset then '+' else '-'
  ⟨sign :: padNum 2 (offset.natAbs / 3600) ++ ':' :: padNum 2 (offset.natAbs % 3600 / 60)⟩

/-- The UTC offset `calculate_hash` attaches to the generation
timestamp: the datetime's own offset when it has one, otherwise the
offset selected by `time.daylight and time.localtime().tm_isdst`
(DST status *now*, at the moment of hashing). -/
def hashTzOffset (env : TzEnv) (dt : DateTimeM) : Int :=
  match dt.tzOffset with
  | some o => o
  | none => if env.daylight && env.nowIsDst then env.dstOffset else env.stdOffset

/-- The canonical `YYYY-MM-DDTHH:MM:SS±HH:MM` string `calculate_hash`
(and the XML export) builds for the generation timestamp. -/
def fmtHashTimestamp (env : TzEnv) (dt : DateTimeM) : String :=
  fmtDateTimeBody dt ++ fmtOffset (hashTzOffset env dt)

/-! ## Value types and identifiers -/

def invoiceTypeCodes : List String := ["F1", "F2", "F3", "R1", "R2", "R3", "R4", "R5"]

def taxTypeCodes : List String := ["01", "02", "03", "05"]

def regimeTypeCodes : List String :=
  ["01", "02", "03", "04", "05", "06", "07", "08", "09", "10",
   "11", "14", "15", "17", "18", "19", "20"]

def operationTypeCodes : List String :=
  ["S1", "S2", "N1", "N2", "E1", "E2", "E3", "E4", "E5", "E6"]

def correctiveTypeCodes : List String := ["S", "I"]

def foreignIdTypeCodes : List String := ["02", "03", "04", "05", "06", "07"]

/-- `OperationType.is_subject`. -/
def isSubjectOp (op : String) : Bool := op == "S1" || op == "S2"

/-- Python `not v or not v.strip()` for the whitespace `str.strip()`
removes (blank or whitespace-only string). -/
def isBlank (s : String) : Bool :=
  s.data.all fun c => c = ' ' ∨ c = '\t' ∨ c = '\n' ∨ c = '\r' ∨ c = '\x0b' ∨ c = '\x0c'

structure InvoiceIdentifier where
  issuer_id : String
  invoice_number : String
  issue_date : DateTimeM
deriving DecidableEq, Repr

/-- Field validators of `InvoiceIdentifier` (9-char issuer, ≤60-char
number, both non-blank). -/
def invoiceIdentifierOk (iid : InvoiceIdentifier) : Bool :=
  iid.issuer_id.length == 9 && !isBlank iid.issuer_id &&
  iid.invoice_number.length ≤ 60 && !isBlank iid.invoice_number

structure FiscalIdentifier where
  name : String
  nif : String
deriving DecidableEq, Repr

def fiscalIdentifierOk (f : FiscalIdentifier) : Bool :=
  f.name.length ≤ 120 && !isBlank f.name && f.nif.length == 9

structure ForeignFiscalIdentifier where
  name : String
  country : String
  type : String
  value : String
deriving DecidableEq, Repr

def isUpperAlpha (c : Char) : Bool := 'A' ≤ c && c ≤ 'Z'

def foreignFiscalIdentifierOk (f : ForeignFiscalIdentifier) : Bool :=
  f.name.length ≤ 120 && !isBlank f.name &&
  f.country.length == 2 && f.country.data.all isUpperAlpha &&
  f.type ∈ foreignIdTypeCodes &&
  f.value.length ≤ 20 && !isBlank f.value &&
  f.country ≠ "ES"

inductive Recipient where
  | domestic (f : FiscalIdentifier)
  | foreign (f : ForeignFiscalIdentifier)
deriving DecidableEq, Repr

def recipientOk : Recipient → Bool
  | .domestic f => fiscalIdentifierOk f
  | .foreign f => foreignFiscalIdentifierOk f

/-! ## Breakdown lines (`BreakdownDetails`) -/

structure BreakdownDetails where
  tax_type : String
  regime_type : String
  operation_type : String
  base_amount : String
  tax_rate : Option String := none
  tax_amount : Option String := none
deriving DecidableEq, Repr

/-- The five candidate strings `f"{best_tax_amount + tolerance:.2f}"`
for `tolerance in [0, -0.01, 0.01, -0.02, 0.02]`, where
`best_tax_amount = float(base) * (float(rate) / 100)`; `b` is the base
in cents and `r` the rate in hundredths of a percent, so the product is
in `10^-6` monetary units. -/
def taxCandidates (b r : Int) : List String :=
  [0, -1, 1, -2, 2].map fun tol => fmtMicro (b * r + tol * 10000)

/-- `BreakdownDetails.validate_tax_amount_calculation`: when base, rate
and tax amount are all present, the declared tax string must equal one
of the five tolerance candidates.  (The parse failures are unreachable
because the per-field format validators run first.)  The candidates
model the source's `float(base) * (float(rate) / 100)` exactly; on the
domain `20000 < b·r ≤ 10^12` with `b·r % 10^4 ≠ 5000` (carried by the
tolerance theorem) each candidate value is a positive integer tick at
least one tick from every rounding boundary while the double carries
less than `10⁻³` of a tick of error, so the candidate strings coincide
with the source's. -/
def taxAmountCalcOk (d : BreakdownDetails) : Bool :=
  match d.tax_rate, d.tax_amount with
  | some rs, some ts =>
      match parseAmount d.base_amount, parseRate rs with
      | some b, some r => ts ∈ taxCandidates b (r : Int)
      | _, _ => true
  | _, _ => true

/-- `BreakdownDetails.validate_operation_type_rules`. -/
def operationTypeRulesOk (d : BreakdownDetails) : Bool :=
  if isSubjectOp d.operation_type then d.tax_rate.isSome && d.tax_amount.isSome
  else d.tax_rate.isNone && d.tax_amount.isNone

/-- All validators of a `BreakdownDetails` line: enum membership of the
typed fields, amount/rate formats, the operation-type presence rules and
the tax-amount arithmetic check. -/
def breakdownDetailsOk (d : BreakdownDetails) : Bool :=
  d.tax_type ∈ taxTypeCodes && d.regime_type ∈ regimeTypeCodes &&
  d.operation_type ∈ operationTypeCodes &&
  (parseAmount d.base_amount).isSome &&
  (match d.tax_rate with | none => true | some rs => (parseRate rs).isSome) &&
  (match d.tax_amount with | none => true | some ts => (parseAmount ts).isSome) &&
  operationTypeRulesOk d &&
  taxAmountCalcOk d

/-! ## Records (`Record`, `RegistrationRecord`, `CancellationRecord`) -/

def isUpperHexDigit (c : Char) : Bool :=
  ('0' ≤ c && c ≤ '9') || ('A' ≤ c && c ≤ 'F')

/-- The `^[0-9A-F]{64}$` check on record hashes. -/
def isHex64 (s : String) : Bool := s.length == 64 && s.data.all isUpperHexDigit

/-- The fields shared by both record variants (`Record`). -/
structure RecordBase where
  invoice_id : InvoiceIdentifier
  previous_invoice_id : Option InvoiceIdentifier := none
  previous_hash : Option String := none
  hash : String := ""
  hashed_at : DateTimeM
  previous_rejection : Option String := none
  correction : Option String := none
  external_reference : Option String := none
deriving DecidableEq, Repr

/-- `Record.validate_correction_fields`, as a function of the two
optional markers. -/
def correctionFieldsOk (correction previous_rejection : Option String) : Bool :=
  !(previous_rejection == some "X" && !(correction == some "S")) &&
  !(correction == some "N" &&
      (previous_rejection == some "S" || previous_rejection == some "X")) &&
  !(correction == some "S" && previous_rejection == some "N")

/-- `Record.validate_previous_invoice_consistency`. -/
def previousPairConsistent (r : RecordBase) : Bool :=
  !(r.previous_invoice_id.isSome && r.previous_hash.isNone) &&
  !(r.previous_hash.isSome && r.previous_invoice_id.isNone)

/-- The per-field validators of `Record` (hash formats, marker domains,
external-reference length). -/
def recordFieldsOk (r : RecordBase) : Bool :=
  (match r.previous_hash with | none => true | some h => isHex64 h) &&
  (r.hash == "" || isHex64 r.hash) &&
  (match r.previous_rejection with | none => true | some v => v ∈ ["S", "N", "X"]) &&
  (match r.correction with | none => true | some v => v ∈ ["S", "N"]) &&
  (match r.external_reference with | none => true | some v => v.length ≤ 60)

/-- `Record.validate_hash_value` for a variant whose `calculate_hash`
is `calc`. -/
def hashValueOk (expected : String) (r : RecordBase) : Bool :=
  r.hash == "" || r.hash == expected

structure RegistrationRecord extends RecordBase where
  is_correction : Bool := false
  issuer_name : String
  invoice_type : String
  description : String
  recipients : List Recipient := []
  corrective_type : Option String := none
  corrected_invoices : List InvoiceIdentifier := []
  corrected_base_amount : Option String := none
  corrected_tax_amount : Option String := none
  replaced_invoices : List InvoiceIdentifier := []
  breakdown : List BreakdownDetails := []
  total_tax_amount : String
  total_amount : String
deriving DecidableEq, Repr

structure CancellationRecord extends RecordBase where
  without_prior_record : Bool := false
deriving DecidableEq, Repr

/-- `RegistrationRecord.calculate_hash`: the fixed-order, unescaped
`key=value` payload hashed with SHA-256. -/
def registrationHashPayload (env : TzEnv) (r : RegistrationRecord) : String :=
  "IDEmisorFactura=" ++ r.invoice_id.issuer_id ++
  "&NumSerieFactura=" ++ r.invoice_id.invoice_number ++
  "&FechaExpedicionFactura=" ++ fmtDateDDMMYYYY r.invoice_id.issue_date ++
  "&TipoFactura=" ++ r.invoice_type ++
  "&CuotaTotal=" ++ r.total_tax_amount ++
  "&ImporteTotal=" ++ r.total_amount ++
  "&Huella=" ++ (r.previous_hash.getD "") ++
  "&FechaHoraHusoGenRegistro=" ++ fmtHashTimestamp env r.hashed_at

def registrationCalculateHash (env : TzEnv) (r : RegistrationRecord) : String :=
  sha256HexU (registrationHashPayload env r)

/-- `CancellationRecord.calculate_hash`. -/
def cancellationHashPayload (env : TzEnv) (r : CancellationRecord) : String :=
  "IDEmisorFacturaAnulada=" ++ r.invoice_id.issuer_id ++
  "&NumSerieFacturaAnulada=" ++ r.invoice_id.invoice_number ++
  "&FechaExpedicionFacturaAnulada=" ++ fmtDateDDMMYYYY r.invoice_id.issue_date ++
  "&Huella=" ++ (r.previous_hash.getD "") ++
  "&FechaHoraHusoGenRegistro=" ++ fmtHashTimestamp env r.hashed_at

def cancellationCalculateHash (env : TzEnv) (r : CancellationRecord) : String :=
  sha256HexU (cancellationHashPayload env r)

/-! ## Registration-record validators -/

/-- Sum of the breakdown's tax and base amounts in cents, or `none` as
soon as a line carries no tax amount (the source's early `return self`
in `validate_totals`; `base_amount` is a required field, but its parse
is matched for faithfulness to the `is None` test). -/
def sumBreakdownCents : List BreakdownDetails → Option (Int × Int)
  | [] => some (0, 0)
  | d :: ds =>
      match d.tax_amount with
      | none => none
      | some ts =>
          match parseAmount ts, parseAmount d.base_amount with
          | some t, some b =>
              match sumBreakdownCents ds with
              | some (st, sb) => some (st + t, sb + b)
              | none => none
          | _, _ => none

/-- Whether a declared amount string equals what `f"{x:.2f}"` renders
for a float sum whose exact value is `n` cents.  When `n ≠ 0` (and the
sum is small enough that the float error stays below half a cent, the
domain the totals theorem carries) the rendering is exactly
`centsToString n`; when `n = 0` the float residual's sign depends on
summation order and binary rounding, so the source's expected string is
one of `"0.00"` / `"-0.00"` — both are accepted here, keeping the model
a superset of the source's acceptance on the domain. -/
def matchesExpectedCents (s : String) (n : Int) : Bool :=
  s == centsToString n || (n == 0 && s == "-0.00")

/-- `RegistrationRecord.validate_totals`: with every line's amounts
present, the declared total tax must equal the formatted float sum
(`f"{expected_total_tax_amount:.2f}"`), and the declared total must
equal the formatted base+tax sum shifted by one of
`[0, -0.01, 0.01, -0.02, 0.02]`.  The float sums are modelled by exact
cent sums through `matchesExpectedCents` (see there for the domain on
which this is faithful). -/
def validateTotals (r : RegistrationRecord) : Bool :=
  if r.breakdown.isEmpty || r.total_tax_amount == "" || r.total_amount == "" then true
  else
    match sumBreakdownCents r.breakdown with
    | none => true
    | some (st, sb) =>
        matchesExpectedCents r.total_tax_amount st &&
        ([0, -1, 1, -2, 2].any fun tol => matchesExpectedCents r.total_amount (sb + st + tol))

/-- `RegistrationRecord.validate_recipients`. -/
def validateRecipients (r : RegistrationRecord) : Bool :=
  if r.invoice_type == "F2" || r.invoice_type == "R5" then r.recipients.isEmpty
  else !r.recipients.isEmpty

/-- `RegistrationRecord.validate_corrective_details`. -/
def validateCorrectiveDetails (r : RegistrationRecord) : Bool :=
  let is_corrective := r.invoice_type ∈ ["R1", "R2", "R3", "R4", "R5"]
  (if is_corrective then r.corrective_type.isSome else r.corrective_type.isNone) &&
  (is_corrective || r.corrected_invoices.isEmpty) &&
  (if r.corrective_type == some "S" then
    r.corrected_base_amount.isSome && r.corrected_tax_amount.isSome
  else r.corrected_base_amount.isNone && r.corrected_tax_amount.isNone)

/-- `RegistrationRecord.validate_replaced_invoices`. -/
def validateReplacedInvoices (r : RegistrationRecord) : Bool :=
  r.invoice_type == "F3" || r.replaced_invoices.isEmpty

/-- The full acceptance predicate for a `RegistrationRecord`: the
pydantic per-field validators plus every model validator. -/
def registrationValid (env : TzEnv) (r : RegistrationRecord) : Bool :=
  invoiceIdentifierOk r.invoice_id &&
  (match r.previous_invoice_id with | none => true | some p => invoiceIdentifierOk p) &&
  recordFieldsOk r.toRecordBase &&
  hashValueOk (registrationCalculateHash env r) r.toRecordBase &&
  previousPairConsistent r.toRecordBase &&
  correctionFieldsOk r.correction r.previous_rejection &&
  !isBlank r.issuer_name && r.issuer_name.length ≤ 120 &&
  r.invoice_type ∈ invoiceTypeCodes &&
  !isBlank r.description && r.description.length ≤ 500 &&
  r.recipients.length ≤ 1000 && r.recipients.all recipientOk &&
  (match r.corrective_type with | none => true | some v => v ∈ correctiveTypeCodes) &&
  r.corrected_invoices.all invoiceIdentifierOk &&
  (match r.corrected_base_amount with | none => true | some v => (parseAmount v).isSome) &&
  (match r.corrected_tax_amount with | none => true | some v => (parseAmount v).isSome) &&
  r.replaced_invoices.all invoiceIdentifierOk &&
  1 ≤ r.breakdown.length && r.breakdown.length ≤ 12 &&
  r.breakdown.all breakdownDetailsOk &&
  (parseAmount r.total_tax_amount).isSome &&
  (parseAmount r.total_amount).isSome &&
  validateTotals r &&
  validateRecipients r &&
  validateCorrectiveDetails r &&
  validateReplacedInvoices r

/-- The per-line domain on which the exact-integer model of the
source's binary64 arithmetic is faithful: base and tax amounts of at
most `10^7` cents each (so any product with a rate below `1000%` stays
within `10^12` ticks and any 12-line sum within `1.2·10^8` cents,
keeping every accumulated float error far below the distance to a
rounding decision), the base·rate product not an exact half-cent tie
(where the double's rounding direction is value-specific), and not an
exact whole-cent multiple within the tolerance reach (where a zero
float residual's sign is unpredictable). -/
def lineFloatFaithful (d : BreakdownDetails) : Bool :=
  (match parseAmount d.base_amount with
   | some b =>
      b.natAbs ≤ 10000000 &&
      (match d.tax_rate with
       | some rs =>
          (match parseRate rs with
           | some r =>
              (b * (r : Int)) % 10000 ≠ 5000 &&
              !(decide (b * (r : Int) ∈ ([-20000, -10000, 0, 10000, 20000] : List Int)))
           | none => true)
       | none => true)
   | none => true) &&
  (match d.tax_amount with
   | some ts =>
      (match parseAmount ts with
       | some t => t.natAbs ≤ 10000000
       | none => true)
   | none => true)

/-- `CancellationRecord.validate_enforce_previous_invoice`. -/
def enforcePreviousInvoice (r : CancellationRecord) : Bool :=
  r.previous_invoice_id.isSome && r.previous_hash.isSome

/-- The full acceptance predicate for a `CancellationRecord`. -/
def cancellationValid (env : TzEnv) (r : CancellationRecord) : Bool :=
  invoiceIdentifierOk r.invoice_id &&
  (match r.previous_invoice_id with | none => true | some p => invoiceIdentifierOk p) &&
  recordFieldsOk r.toRecordBase &&
  hashValueOk (cancellationCalculateHash env r) r.toRecordBase &&
  previousPairConsistent r.toRecordBase &&
  correctionFieldsOk r.correction r.previous_rejection &&
  enforcePreviousInvoice r

/-! ## Claim-side (specification) definitions

These definitions are written from the specification's words, to be
compared against the code-derived definitions above. -/

/-- The §3 correction/rejection table as the claim states it: any
correction with `previous_rejection` absent is allowed; correction `N`
is allowed only with `previous_rejection` `N` or absent; correction `S`
is disallowed with `previous_rejection` `N`; `previous_rejection` `X`
requires correction `S`. -/
def specCorrectionTableAllows (correction previous_rejection : Option String) : Bool :=
  match correction, previous_rejection with
  | _, none => true
  | some "N", some "N" => true
  | some "N", some "S" => false
  | some "N", some "X" => false
  | some "S", some "N" => false
  | some "S", some "S" => true
  | some "S", some "X" => true
  | none, some "X" => false
  | _, _ => true

/-- The claim's tolerance predicate for a breakdown line:
`|tax − base·rate/100| ≤ 0.02` exactly, with `t` the declared tax in
cents, `b` the base in cents and `r` the rate in hundredths of a
percent (so `base·rate/100 = b·r/10^6` monetary units and the bound is
`|t·10^4 − b·r| ≤ 2·10^4` in `10^-6` units). -/
def specTaxToleranceOk (b r t : Int) : Prop :=
  (t * 10000 - b * r).natAbs ≤ 20000

instance (b r t : Int) : Decidable (specTaxToleranceOk b r t) := by
  unfold specTaxToleranceOk; infer_instance

/-- Modelled from the spec: "the local wall-clock offset at that
instant (including DST) is attached".  `isDstAt` is the time zone's
DST rule (whether daylight saving is in effect at the given local
instant); the offset in force at the instant is then the DST offset
exactly when the zone has DST and it applies at that instant. -/
def specLocalOffsetAt (env : TzEnv) (isDstAt : DateTimeM → Bool) (dt : DateTimeM) : Int :=
  if env.daylight && isDstAt dt then env.dstOffset else env.stdOffset

/-! ## XML trees and ElementTree-style searching

`xml.etree.ElementTree` qualifies tags as `{namespace}local`; searches
are by qualified tag along child paths, or (`.//`) over all
descendants. -/

structure Element where
  tag : String
  text : Option String := none
  children : List Element := []

/-- Qualified tag `\x7bns\x7dlocal`. -/
def qn (ns ln : String) : String := "\x7b" ++ ns ++ "\x7d" ++ ln

def nsSoapenv : String := "http://schemas.xmlsoap.org/soap/envelope/"
def nsSum : String := "https://www2.agenciatributaria.gob.es/static_files/common/internet/dep/aplicaciones/es/aeat/tike/cont/ws/SuministroLR.xsd"
def nsSum1 : String := "https://www2.agenciatributaria.gob.es/static_files/common/internet/dep/aplicaciones/es/aeat/tike/cont/ws/SuministroInformacion.xsd"
def nsCons : String := "https://www2.agenciatributaria.gob.es/static_files/common/internet/dep/aplicaciones/es/aeat/tike/cont/ws/ConsultaLR.xsd"
def nsTikR : String := "https://www2.agenciatributaria.gob.es/static_files/common/internet/dep/aplicaciones/es/aeat/tike/cont/ws/RespuestaSuministro.xsd"
def nsTikRC : String := "https://www2.agenciatributaria.gob.es/static_files/common/internet/dep/aplicaciones/es/aeat/tike/cont/ws/RespuestaConsultaLR.xsd"

/-- `nsTik` coincides with `nsSum1` (`SuministroInformacion.xsd`). -/
def nsTik : String := nsSum1

mutual

/-- All proper descendants of an element, in document order. -/
def Element.descs : Element → List Element
  | ⟨_, _, cs⟩ => descsList cs

def descsList : List Element → List Element
  | [] => []
  | c :: cs => c :: Element.descs c ++ descsList cs

end

/-- All elements reached from `e` along a child path of qualified tags
(`find`/`findall` with a `a/b/c` path). -/
def selPath : List String → Element → List Element
  | [], e => [e]
  | t :: ts, e => (e.children.filter fun c => c.tag == t).flatMap (selPath ts)

/-- `element.find("a/b")`: first match along the path. -/
def findPath (e : Element) (p : List String) : Option Element := (selPath p e).head?

/-- `element.findall("a")`. -/
def findAllPath (e : Element) (p : List String) : List Element := selPath p e

/-- `root.find(".//t/rest...")`: first match of the path anchored at any
descendant. -/
def findDesc (e : Element) (t : String) (rest : List String) : Option Element :=
  ((e.descs.filter fun c => c.tag == t).flatMap (selPath rest)).head?

/-- An optional element's text, as the decoders read it
(`el.text if el is not None and el.text else None`-style accesses). -/
def optText (o : Option Element) : Option String :=
  match o with
  | some e => match e.text with
    | some t => if t = "" then none else some t
    | none => none
  | none => none

/-! ## XML export of a cancellation record (`AeatClient._export_record`)

`AeatClient._export_cancellation_record` reads `record.issuer_name` and
`record.cancellation_type` from the record; Python attribute access on a
pydantic model resolves against the model's declared fields and raises
`AttributeError` for any other name, so attribute access is embedded as
a name-indexed lookup over the fields `CancellationRecord` declares. -/

structure ComputerSystem where
  vendor_name : String
  vendor_nif : String
  name : String
  id : String
  version : String
  installation_number : String
  only_supports_verifactu : Bool
  supports_multiple_taxpayers : Bool
  has_multiple_taxpayers : Bool

inductive PyAttrValue where
  | vStr (s : String)
  | vOptStr (s : Option String)
  | vBool (b : Bool)
  | vInvoiceId (i : InvoiceIdentifier)
  | vOptInvoiceId (i : Option InvoiceIdentifier)
  | vDateTime (d : DateTimeM)

/-- Attribute lookup on a `CancellationRecord` instance: exactly the
pydantic fields declared on `Record` and `CancellationRecord` resolve;
every other name is an `AttributeError`. -/
def CancellationRecord.getattr (r : CancellationRecord) : String → Option PyAttrValue
  | "invoice_id" => some (.vInvoiceId r.invoice_id)
  | "previous_invoice_id" => some (.vOptInvoiceId r.previous_invoice_id)
  | "previous_hash" => some (.vOptStr r.previous_hash)
  | "hash" => some (.vStr r.hash)
  | "hashed_at" => some (.vDateTime r.hashed_at)
  | "previous_rejection" => some (.vOptStr r.previous_rejection)
  | "correction" => some (.vOptStr r.correction)
  | "external_reference" => some (.vOptStr r.external_reference)
  | "without_prior_record" => some (.vBool r.without_prior_record)
  | _ => none

def elT (tag txt : String) : Element := ⟨tag, some txt, []⟩

def elC (tag : String) (cs : List Element) : Element := ⟨tag, none, cs⟩

def boolSN (b : Bool) : String := if b then "S" else "N"

/-- `AeatClient._add_invoice_id`. -/
def invoiceIdXml (iid : InvoiceIdentifier) : Element :=
  elC (qn nsSum1 "IDFactura")
    [elT (qn nsSum1 "IDEmisorFactura") iid.issuer_id,
     elT (qn nsSum1 "NumSerieFactura") iid.invoice_number,
     elT (qn nsSum1 "FechaExpedicionFactura") (fmtDateDDMMYYYY iid.issue_date)]

/-- `AeatClient._add_chaining`. -/
def chainingXml (prev : Option InvoiceIdentifier) (prevHash : Option String) : Element :=
  elC (qn nsSum1 "Encadenamiento")
    (match prev with
     | none => [elT (qn nsSum1 "PrimerRegistro") "S"]
     | some p =>
        [elC (qn nsSum1 "RegistroAnterior")
          [elT (qn nsSum1 "IDEmisorFactura") p.issuer_id,
           elT (qn nsSum1 "NumSerieFactura") p.invoice_number,
           elT (qn nsSum1 "FechaExpedicionFactura") (fmtDateDDMMYYYY p.issue_date),
           ⟨qn nsSum1 "Huella", prevHash, []⟩]])

/-- `AeatClient._add_computer_system`. -/
def computerSystemXml (sys : ComputerSystem) : Element :=
  elC (qn nsSum1 "SistemaInformatico")
    [elT (qn nsSum1 "NombreRazon") sys.vendor_name,
     elT (qn nsSum1 "NIF") sys.vendor_nif,
     elT (qn nsSum1 "NombreSistemaInformatico") sys.name,
     elT (qn nsSum1 "IdSistemaInformatico") sys.id,
     elT (qn nsSum1 "Version") sys.version,
     elT (qn nsSum1 "NumeroInstalacion") sys.installation_number,
     elT (qn nsSum1 "TipoUsoPosibleSoloVerifactu") (boolSN sys.only_supports_verifactu),
     elT (qn nsSum1 "TipoUsoPosibleMultiOT") (boolSN sys.supports_multiple_taxpayers),
     elT (qn nsSum1 "IndicadorMultiplesOT") (boolSN sys.has_multiple_taxpayers)]

/-- `AeatClient._export_cancellation_record`: invoice id, then
`record.issuer_name`, then `record.cancellation_type.value` — the last
two are attribute accesses on fields `CancellationRecord` does not
declare. -/
def exportCancellationBody (r : CancellationRecord) : Except String (List Element) := do
  let idf := invoiceIdXml r.invoice_id
  let issuerName ← match r.getattr "issuer_name" with
    | some (.vStr s) => Except.ok s
    | _ => (Except.error
        "AttributeError: 'CancellationRecord' object has no attribute 'issuer_name'" :
        Except String String)
  let cancellationType ← match r.getattr "cancellation_type" with
    | some (.vStr s) => Except.ok s
    | _ => (Except.error
        "AttributeError: 'CancellationRecord' object has no attribute 'cancellation_type'" :
        Except String String)
  Except.ok [idf,
    elT (qn nsSum1 "NombreRazonEmisor") issuerName,
    elT (qn nsSum1 "TipoFactura") cancellationType]

/-- `AeatClient._export_record` for a `CancellationRecord`: the
`RegistroFactura` element with a `RegistroAnulacion` child holding
version, variant body, chaining, computer system, timestamp, hash kind,
hash and the optional markers. -/
def exportCancellationRecordXml (env : TzEnv) (sys : ComputerSystem)
    (r : CancellationRecord) : Except String Element := do
  let body ← exportCancellationBody r
  let optional : List Element :=
    (match r.previous_rejection with
     | some v => if v ≠ "" then [elT (qn nsSum1 "RechazoPrevio") v] else []
     | none => []) ++
    (match r.correction with
     | some v => if v ≠ "" then [elT (qn nsSum1 "Subsanacion") v] else []
     | none => []) ++
    (match r.external_reference with
     | some v => if v ≠ "" then [elT (qn nsSum1 "RefExterna") v] else []
     | none => [])
  Except.ok <| elC (qn nsSum "RegistroFactura")
    [elC (qn nsSum1 "RegistroAnulacion")
      ([elT (qn nsSum1 "IDVersion") "1.0"] ++ body ++
       [chainingXml r.previous_invoice_id r.previous_hash,
        computerSystemXml sys,
        elT (qn nsSum1 "FechaHoraHusoGenRegistro") (fmtHashTimestamp env r.hashed_at),
        elT (qn nsSum1 "TipoHuella") "01",
        elT (qn nsSum1 "Huella") r.hash] ++ optional)]

/-! ## Text parsers used by the response decoders -/

def digitsVal (cs : List Char) : Nat := cs.foldl (fun a c => a * 10 + charVal c) 0

/-- A group of one or two decimal digits (the `%d` / `%m` patterns of
`strptime`). -/
def parseGroup12 (cs : List Char) : Option Nat :=
  if (cs.length == 1 || cs.length == 2) && cs.all isDigitC then some (digitsVal cs)
  else none

/-- Exactly four decimal digits (the `%Y` pattern of `strptime`). -/
def parseGroup4 (cs : List Char) : Option Nat :=
  if cs.length == 4 && cs.all isDigitC then some (digitsVal cs) else none

def isLeapYear (y : Nat) : Bool := (y % 4 == 0 && y % 100 != 0) || y % 400 == 0

def daysInMonth (y m : Nat) : Nat :=
  if m ∈ [1, 3, 5, 7, 8, 10, 12] then 31
  else if m ∈ [4, 6, 9, 11] then 30
  else if isLeapYear y then 29 else 28

/-- Split a character list on a separator (every occurrence). -/
def splitChar (sep : Char) (cs : List Char) : List (List Char) :=
  cs.foldr
    (fun c acc =>
      match acc with
      | [] => if c = sep then [[], []] else [[c]]
      | g :: gs => if c = sep then [] :: g :: gs else (c :: g) :: gs)
    [[]]

/-- `datetime.strptime(text, "%d-%m-%Y")` followed by
`.replace(hour=0, ...)`: day and month as one or two digits, year as
four digits, with calendar validity (day range per month, year ≥ 1);
any other shape is a `ValueError`. -/
def parseDDMMYYYY (s : String) : Option DateTimeM :=
  match splitChar '-' s.data with
  | [dcs, mcs, ycs] =>
      match parseGroup12 dcs, parseGroup12 mcs, parseGroup4 ycs with
      | some d, some m, some y =>
          if 1 ≤ d && d ≤ 31 && 1 ≤ m && m ≤ 12 && 1 ≤ y && d ≤ daysInMonth y m then
            some { year := y, month := m, day := d }
          else none
      | _, _, _ => none
  | _ => none

/-- Python `int(text)` on an optionally signed digit string. -/
def parsePyInt (s : String) : Option Int :=
  match s.data with
  | '-' :: cs => if cs ≠ [] && cs.all isDigitC then some (-(digitsVal cs : Int)) else none
  | '+' :: cs => if cs ≠ [] && cs.all isDigitC then some ((digitsVal cs : Int)) else none
  | cs => if cs ≠ [] && cs.all isDigitC then some ((digitsVal cs : Int)) else none

/-- `text.replace("Z", "+00:00")`. -/
def replaceZ (s : String) : String :=
  ⟨s.data.flatMap fun c => if c = 'Z' then "+00:00".data else [c]⟩

def validHms (h mi se : Nat) : Bool := h ≤ 23 && mi ≤ 59 && se ≤ 59

def validYmd (y m d : Nat) : Bool :=
  1 ≤ y && y ≤ 9999 && 1 ≤ m && m ≤ 12 && 1 ≤ d && d ≤ daysInMonth y m

/-- `datetime.fromisoformat` on the shapes AEAT responses use:
`YYYY-MM-DD`, `YYYY-MM-DD[T ]HH:MM:SS` and the same with a `±HH:MM`
offset (a leading `Z` is rewritten by `replaceZ` before the call). -/
def parseIsoDateTime (s : String) : Option DateTimeM :=
  match s.data with
  | [y1, y2, y3, y4, '-', m1, m2, '-', d1, d2] =>
      if [y1, y2, y3, y4, m1, m2, d1, d2].all isDigitC then
        let y := digitsVal [y1, y2, y3, y4]
        let m := digitsVal [m1, m2]
        let d := digitsVal [d1, d2]
        if validYmd y m d then some { year := y, month := m, day := d } else none
      else none
  | [y1, y2, y3, y4, '-', m1, m2, '-', d1, d2, sep, h1, h2, ':', n1, n2, ':', s1, s2] =>
      if (sep = 'T' ∨ sep = ' ') ∧
          [y1, y2, y3, y4, m1, m2, d1, d2, h1, h2, n1, n2, s1, s2].all isDigitC then
        let y := digitsVal [y1, y2, y3, y4]
        let m := digitsVal [m1, m2]
        let d := digitsVal [d1, d2]
        let h := digitsVal [h1, h2]
        let mi := digitsVal [n1, n2]
        let se := digitsVal [s1, s2]
        if validYmd y m d && validHms h mi se then
          some { year := y, month := m, day := d, hour := h, minute := mi, second := se }
        else none
      else none
  | [y1, y2, y3, y4, '-', m1, m2, '-', d1, d2, sep, h1, h2, ':', n1, n2, ':', s1, s2,
      sg, o1, o2, ':', p1, p2] =>
      if (sep = 'T' ∨ sep = ' ') ∧ (sg = '+' ∨ sg = '-') ∧
          [y1, y2, y3, y4, m1, m2, d1, d2, h1, h2, n1, n2, s1, s2, o1, o2, p1, p2].all
            isDigitC then
        let y := digitsVal [y1, y2, y3, y4]
        let m := digitsVal [m1, m2]
        let d := digitsVal [d1, d2]
        let h := digitsVal [h1, h2]
        let mi := digitsVal [n1, n2]
        let se := digitsVal [s1, s2]
        let oh := digitsVal [o1, o2]
        let om := digitsVal [p1, p2]
        if validYmd y m d && validHms h mi se && oh ≤ 23 && om ≤ 59 then
          some { year := y, month := m, day := d, hour := h, minute := mi, second := se,
                 tzOffset := some (if sg = '-' then -((oh * 3600 + om * 60 : Nat) : Int)
                   else ((oh * 3600 + om * 60 : Nat) : Int)) }
        else none
      else none
  | _ => none

/-! ## Submission-response decoder (`AeatResponse.from_xml`)

The decoders are embedded over the parsed XML tree (the value
`ET.fromstring` returns); enum coercions such as
`ResponseStatus(text)` become membership checks that raise
(`Except.error`) exactly when Python's `Enum(...)` call would. -/

/-- The current wall-clock, for the decoders' `datetime.now()`
fallbacks. -/
structure DecodeEnv where
  now : DateTimeM

def missingAeatRootMsg : String :=
  "Missing <tikR:RespuestaRegFactuSistemaFacturacion /> element from response"

def missingQueryRootMsg : String :=
  "Missing <tikR:RespuestaConsultaFactuSistemaFacturacion /> element from response"

structure ResponseItem where
  invoice_id : InvoiceIdentifier
  record_type : String
  status : String
  is_correction : Bool := false
  error_code : Option String := none
  error_description : Option String := none
deriving DecidableEq, Repr

structure AeatResponse where
  wait_seconds : Int
  status : String
  items : List ResponseItem := []
  csv : Option String := none
  submitted_at : Option DateTimeM := none
deriving DecidableEq, Repr

def responseStatusCodes : List String := ["Correcto", "ParcialmenteCorrecto", "Incorrecto"]

def itemStatusCodes : List String := ["Correcto", "AceptadoConErrores", "Incorrecto"]

def recordTypeCodes : List String := ["Alta", "Anulacion"]

def queryRecordStatusCodes : List String := ["Correcto", "AceptadoConErrores", "Anulado"]

/-- Pydantic construction of an `InvoiceIdentifier` inside a decoder:
a `None` field or a field-validator failure raises. -/
def mkInvoiceIdentifierChecked (issuer number : Option String) (date : DateTimeM) :
    Except String InvoiceIdentifier :=
  match issuer, number with
  | some i, some n =>
      if invoiceIdentifierOk ⟨i, n, date⟩ then Except.ok ⟨i, n, date⟩
      else Except.error "ValidationError: invalid InvoiceIdentifier"
  | _, _ => Except.error "ValidationError: invalid InvoiceIdentifier"

/-- `element.text if element is not None else ""` (the element's own
text may itself be `None`). -/
def textOrEmpty (o : Option Element) : Option String :=
  match o with
  | some e => e.text
  | none => some ""

/-- One `RespuestaLinea` of a submission response. -/
def parseResponseLinea (env : DecodeEnv) (item : Element) : Except String ResponseItem := do
  let issuer := textOrEmpty (findPath item [qn nsTikR "IDFactura", qn nsTik "IDEmisorFactura"])
  let number := textOrEmpty (findPath item [qn nsTikR "IDFactura", qn nsTik "NumSerieFactura"])
  let issueDate ← (match findPath item [qn nsTikR "IDFactura", qn nsTik "FechaExpedicionFactura"] with
    | some e => (match e.text with
      | some t =>
          if t ≠ "" then
            match parseDDMMYYYY t with
            | some d => Except.ok d
            | none => Except.error ("Invalid invoice issue date: " ++ t)
          else Except.ok env.now
      | none => Except.ok env.now)
    | none => (Except.ok env.now : Except String DateTimeM))
  let recordType ← (match optText (findPath item [qn nsTikR "Operacion", qn nsTik "TipoOperacion"]) with
    | some t => if t ∈ recordTypeCodes then Except.ok t
        else (Except.error ("ValueError: " ++ t ++ " is not a valid RecordType"))
    | none => (Except.ok "Alta" : Except String String))
  let isCorrection :=
    match findPath item [qn nsTikR "Operacion", qn nsTik "Subsanacion"] with
    | some e => e.text == some "S"
    | none => false
  let itemStatus ← (match optText (findPath item [qn nsTikR "EstadoRegistro"]) with
    | some t => if t ∈ itemStatusCodes then Except.ok t
        else (Except.error ("ValueError: " ++ t ++ " is not a valid ItemStatus"))
    | none => (Except.ok "Incorrecto" : Except String String))
  let errorCode := optText (findPath item [qn nsTikR "CodigoErrorRegistro"])
  let errorDescription := optText (findPath item [qn nsTikR "DescripcionErrorRegistro"])
  let iid ← mkInvoiceIdentifierChecked issuer number issueDate
  Except.ok ({ invoice_id := iid
               record_type := recordType
               status := itemStatus
               is_correction := isCorrection
               error_code := errorCode
               error_description := errorDescription } : ResponseItem)

/-- `AeatResponse.from_xml`, over the parsed tree. -/
def aeatResponseFromXml (env : DecodeEnv) (root : Element) : Except String AeatResponse := do
  let faultTxt := (optText (findDesc root (qn nsSoapenv "Fault") ["faultstring"])).getD ""
  if faultTxt ≠ "" then Except.error faultTxt
  else
    match findDesc root (qn nsTikR "RespuestaRegFactuSistemaFacturacion") [] with
    | none => Except.error missingAeatRootMsg
    | some rootEl => do
        let csv := optText (findPath rootEl [qn nsTikR "CSV"])
        let submittedAt ← (match optText (findPath rootEl
            [qn nsTikR "DatosPresentacion", qn nsTik "TimestampPresentacion"]) with
          | some t => (match parseIsoDateTime (replaceZ t) with
            | some dt => Except.ok (some dt)
            | none => Except.error ("Invalid submitted at date: " ++ t))
          | none => (Except.ok none : Except String (Option DateTimeM)))
        let waitSeconds ← (match optText (findPath rootEl [qn nsTikR "TiempoEsperaEnvio"]) with
          | some t => (match parsePyInt t with
            | some v => Except.ok v
            | none => Except.error ("ValueError: invalid literal for int(): " ++ t))
          | none => (Except.ok 0 : Except String Int))
        let status ← (match optText (findPath rootEl [qn nsTikR "EstadoEnvio"]) with
          | some t => if t ∈ responseStatusCodes then Except.ok t
              else (Except.error ("ValueError: " ++ t ++ " is not a valid ResponseStatus"))
          | none => (Except.ok "Incorrecto" : Except String String))
        let items ← (findAllPath rootEl [qn nsTikR "RespuestaLinea"]).mapM
          (parseResponseLinea env)
        Except.ok { wait_seconds := waitSeconds
                    status := status
                    items := items
                    csv := csv
                    submitted_at := submittedAt }

/-! ## Query-response decoder (`QueryResponse.from_xml`)

In this decoder the `tikR` prefix resolves to the
`RespuestaConsultaLR.xsd` namespace. -/

structure QueryRecipient where
  name : Option String := none
  nif : Option String := none
deriving DecidableEq, Repr

structure QueryBreakdownItem where
  tax_type : Option String := none
  regime_type : Option String := none
  operation_type : Option String := none
  tax_rate : Option String := none
  base_amount : Option String := none
  tax_amount : Option String := none
deriving DecidableEq, Repr

structure QueryPreviousRecord where
  issuer_nif : Option String := none
  invoice_number : Option String := none
  issue_date : Option DateTimeM := none
  hash : Option String := none
deriving DecidableEq, Repr

structure QueryResponseItem where
  invoice_id : InvoiceIdentifier
  issuer_name : Option String := none
  invoice_type : Option String := none
  corrective_type : Option String := none
  description : Option String := none
  total_amount : Option String := none
  total_tax_amount : Option String := none
  hash : Option String := none
  registration_date : Option DateTimeM := none
  recipients : List QueryRecipient := []
  breakdown : List QueryBreakdownItem := []
  status : Option String := none
  error_code : Option String := none
  error_description : Option String := none
  last_modified : Option DateTimeM := none
  csv : Option String := none
  presentation_timestamp : Option DateTimeM := none
  is_first_record : Bool := false
  previous_record : Option QueryPreviousRecord := none
deriving DecidableEq, Repr

structure QueryResponse where
  year : Int
  month : Int
  result_type : String
  has_more_pages : Bool
  items : List QueryResponseItem := []
  pagination_key : Option String := none
deriving DecidableEq, Repr

/-- `el.text if el is not None else None`. -/
def textOrNone (o : Option Element) : Option String :=
  match o with
  | some e => e.text
  | none => none

/-- An ISO timestamp read with a `try/except ValueError: pass` guard
(failures yield `None`). -/
def tryIsoDateTime (o : Option Element) : Option DateTimeM :=
  match o with
  | some e => match e.text with
    | some t => if t ≠ "" then parseIsoDateTime (replaceZ t) else none
    | none => none
  | none => none

/-- `QueryResponse._parse_response_item`.  Total except for the pydantic
construction of the `InvoiceIdentifier`; in particular an unparseable
`FechaExpedicionFactura` silently becomes `datetime.now()`. -/
def queryParseResponseItem (env : DecodeEnv) (item : Element) :
    Except String QueryResponseItem := do
  let issuer := textOrEmpty (findPath item [qn nsTikRC "IDFactura", qn nsTik "IDEmisorFactura"])
  let number := textOrEmpty (findPath item [qn nsTikRC "IDFactura", qn nsTik "NumSerieFactura"])
  let issueDate :=
    match findPath item [qn nsTikRC "IDFactura", qn nsTik "FechaExpedicionFactura"] with
    | some e => (match e.text with
      | some t =>
          if t ≠ "" then
            match parseDDMMYYYY t with
            | some d => d
            | none => env.now
          else env.now
      | none => env.now)
    | none => env.now
  let iid ← mkInvoiceIdentifierChecked issuer number issueDate
  let issuerName := textOrNone (findPath item
    [qn nsTikRC "DatosRegistroFacturacion", qn nsTikRC "NombreRazonEmisor"])
  let invoiceType := textOrNone (findPath item
    [qn nsTikRC "DatosRegistroFacturacion", qn nsTikRC "TipoFactura"])
  let correctiveType := textOrNone (findPath item
    [qn nsTikRC "DatosRegistroFacturacion", qn nsTikRC "TipoRectificativa"])
  let description := textOrNone (findPath item
    [qn nsTikRC "DatosRegistroFacturacion", qn nsTikRC "DescripcionOperacion"])
  let totalAmount := textOrNone (findPath item
    [qn nsTikRC "DatosRegistroFacturacion", qn nsTikRC "ImporteTotal"])
  let totalTaxAmount := textOrNone (findPath item
    [qn nsTikRC "DatosRegistroFacturacion", qn nsTikRC "CuotaTotal"])
  let hashValue := textOrNone (findPath item
    [qn nsTikRC "DatosRegistroFacturacion", qn nsTikRC "Huella"])
  let registrationDate := tryIsoDateTime (findPath item
    [qn nsTikRC "DatosRegistroFacturacion", qn nsTikRC "FechaHoraHusoGenRegistro"])
  let recipients := (findAllPath item
      [qn nsTikRC "DatosRegistroFacturacion", qn nsTikRC "Destinatarios",
       qn nsTikRC "IDDestinatario"]).map fun re =>
    { name := textOrNone (findPath re [qn nsTik "NombreRazon"])
      nif := textOrNone (findPath re [qn nsTik "NIF"]) : QueryRecipient }
  let breakdown := (findAllPath item
      [qn nsTikRC "DatosRegistroFacturacion", qn nsTikRC "Desglose",
       qn nsTik "DetalleDesglose"]).map fun de =>
    { tax_type := textOrNone (findPath de [qn nsTik "Impuesto"])
      regime_type := textOrNone (findPath de [qn nsTik "ClaveRegimen"])
      operation_type := textOrNone (findPath de [qn nsTik "CalificacionOperacion"])
      tax_rate := textOrNone (findPath de [qn nsTik "TipoImpositivo"])
      base_amount := textOrNone (findPath de [qn nsTik "BaseImponibleOimporteNoSujeto"])
      tax_amount := textOrNone (findPath de [qn nsTik "CuotaRepercutida"]) :
        QueryBreakdownItem }
  let status :=
    match optText (findPath item [qn nsTikRC "EstadoRegistro", qn nsTikRC "EstadoRegistro"]) with
    | some t => if t ∈ queryRecordStatusCodes then some t else none
    | none => none
  let errorCode := textOrNone (findPath item
    [qn nsTikRC "EstadoRegistro", qn nsTikRC "CodigoErrorRegistro"])
  let errorDescription := textOrNone (findPath item
    [qn nsTikRC "EstadoRegistro", qn nsTikRC "DescripcionErrorRegistro"])
  let lastModified := tryIsoDateTime (findPath item
    [qn nsTikRC "EstadoRegistro", qn nsTikRC "TimestampUltimaModificacion"])
  let csv := textOrNone (findPath item [qn nsTikRC "DatosPresentacion", qn nsTik "CSV"])
  let presentationTimestamp := tryIsoDateTime (findPath item
    [qn nsTikRC "DatosPresentacion", qn nsTik "TimestampPresentacion"])
  let isFirstRecord :=
    match findPath item [qn nsTikRC "DatosRegistroFacturacion", qn nsTikRC "Encadenamiento",
        qn nsTikRC "PrimerRegistro"] with
    | some e => e.text == some "S"
    | none => false
  let previousRecord :=
    match findPath item [qn nsTikRC "DatosRegistroFacturacion", qn nsTikRC "Encadenamiento",
        qn nsTikRC "RegistroAnterior"] with
    | some pe => some
        { issuer_nif := textOrNone (findPath pe [qn nsTik "IDEmisorFactura"])
          invoice_number := textOrNone (findPath pe [qn nsTik "NumSerieFactura"])
          issue_date :=
            (match optText (findPath pe [qn nsTik "FechaExpedicionFactura"]) with
             | some t => parseDDMMYYYY t
             | none => none)
          hash := textOrNone (findPath pe [qn nsTik "Huella"]) : QueryPreviousRecord }
    | none => none
  Except.ok { invoice_id := iid
              issuer_name := issuerName
              invoice_type := invoiceType
              corrective_type := correctiveType
              description := description
              total_amount := totalAmount
              total_tax_amount := totalTaxAmount
              hash := hashValue
              registration_date := registrationDate
              recipients := recipients
              breakdown := breakdown
              status := status
              error_code := errorCode
              error_description := errorDescription
              last_modified := lastModified
              csv := csv
              presentation_timestamp := presentationTimestamp
              is_first_record := isFirstRecord
              previous_record := previousRecord }

/-- `QueryResponse.from_xml`, over the parsed tree. -/
def queryResponseFromXml (env : DecodeEnv) (root : Element) :
    Except String QueryResponse := do
  let faultTxt := (optText (findDesc root (qn nsSoapenv "Fault") ["faultstring"])).getD ""
  if faultTxt ≠ "" then Except.error faultTxt
  else
    match findDesc root (qn nsTikRC "RespuestaConsultaFactuSistemaFacturacion") [] with
    | none => Except.error missingQueryRootMsg
    | some rootEl => do
        let year ← (match optText (findPath rootEl
            [qn nsTikRC "PeriodoImputacion", qn nsTikRC "Ejercicio"]) with
          | some t => (match parsePyInt t with
            | some v => Except.ok v
            | none => Except.error ("ValueError: invalid literal for int(): " ++ t))
          | none => (Except.ok 0 : Except String Int))
        let month ← (match optText (findPath rootEl
            [qn nsTikRC "PeriodoImputacion", qn nsTikRC "Periodo"]) with
          | some t => (match parsePyInt t with
            | some v => Except.ok v
            | none => Except.error ("ValueError: invalid literal for int(): " ++ t))
          | none => (Except.ok 0 : Except String Int))
        let resultType ← (match optText (findPath rootEl [qn nsTikRC "ResultadoConsulta"]) with
          | some t => if t = "ConDatos" ∨ t = "SinDatos" then Except.ok t
              else (Except.error ("ValueError: " ++ t ++ " is not a valid QueryResultType"))
          | none => (Except.ok "SinDatos" : Except String String))
        let hasMorePages :=
          match optText (findPath rootEl [qn nsTikRC "IndicadorPaginacion"]) with
          | some t => t == "S"
          | none => false
        let paginationKey := optText (findPath rootEl [qn nsTikRC "ClavePaginacion"])
        let items ← (findAllPath rootEl
            [qn nsTikRC "RegistroRespuestaConsultaFactuSistemaFacturacion"]).mapM
          (queryParseResponseItem env)
        Except.ok { year := year
                    month := month
                    result_type := resultType
                    has_more_pages := hasMorePages
                    items := items
                    pagination_key := paginationKey }

/-! ## Concrete instances used by the theorems -/

/-- A process in a CET/CEST zone during summer: `time.daylight` set,
`time.localtime().tm_isdst` currently 1, standard offset +01:00,
DST offset +02:00. -/
def envSummerCEST : TzEnv :=
  { daylight := true, nowIsDst := true, stdOffset := 3600, dstOffset := 7200 }

/-- Modelled from the spec: the DST rule of the local zone — whether
daylight saving is in effect at a given local instant.  Central
European DST runs from late March to late October; only the value at
mid-January (standard time) is relied on. -/
def cetIsDstAt (dt : DateTimeM) : Bool := 4 ≤ dt.month && dt.month ≤ 9

/-- A naive (zone-less) generation timestamp in January. -/
def janNaiveStamp : DateTimeM := { year := 2025, month := 1, day := 15, hour := 10 }

/-- Scenario 1 of §8: the chain-head registration record. -/
def chainHeadRecord : RegistrationRecord :=
  { invoice_id := ⟨"A00000000", "PRUEBA-0001", { year := 2025, month := 6, day := 1 }⟩
    hashed_at := { year := 2025, month := 6, day := 1, hour := 10, minute := 20,
                   second := 30, tzOffset := some 7200 }
    issuer_name := "Empresa de prueba S.A."
    invoice_type := "F2"
    description := "Factura simplificada de prueba"
    breakdown := [{ tax_type := "01", regime_type := "01", operation_type := "S1",
                    base_amount := "10.00", tax_rate := some "21.00",
                    tax_amount := some "2.10" }]
    total_tax_amount := "2.10"
    total_amount := "12.10" }

/-- The expected §8 scenario-1 fingerprint. -/
def chainHeadExpectedHash : String :=
  "F223F0A84F7D0C701C13C97CF10A1628FF9E46A003DDAEF3A804FBD799D82070"

/-- A record agreeing with `chainHeadRecord` on every hash input but
differing in correction markers, external reference, issuer name,
description, recipients and breakdown. -/
def chainHeadVariant : RegistrationRecord :=
  { chainHeadRecord with
    issuer_name := "Otra empresa S.L."
    description := "Concepto distinto"
    correction := some "S"
    previous_rejection := some "X"
    external_reference := some "REF-42"
    is_correction := true
    recipients := [.domestic ⟨"Cliente", "B11111111"⟩]
    breakdown := [{ tax_type := "01", regime_type := "01", operation_type := "E1",
                    base_amount := "12.10" }] }

/-- The §3 tolerance counterexample line: base `0.10`, rate `21.00`
(exact tax `0.021`), declared tax `0.00`. -/
def badToleranceLine : BreakdownDetails :=
  { tax_type := "01", regime_type := "01", operation_type := "S1",
    base_amount := "0.10", tax_rate := some "21.00", tax_amount := some "0.00" }

/-- A record whose single breakdown line is exempt (no tax amount), so
`validate_totals` returns early, with an arbitrary declared total tax. -/
def exemptOnlyRecord : RegistrationRecord :=
  { invoice_id := ⟨"A00000000", "EXENTA-001", { year := 2025, month := 6, day := 1 }⟩
    hashed_at := { year := 2025, month := 6, day := 1, hour := 10, tzOffset := some 7200 }
    issuer_name := "Empresa de prueba S.A."
    invoice_type := "F2"
    description := "Operacion exenta"
    breakdown := [{ tax_type := "01", regime_type := "01", operation_type := "E1",
                    base_amount := "10.00" }]
    total_tax_amount := "999.99"
    total_amount := "10.00" }

/-- A fully valid cancellation record with `without_prior_record`
set, carrying the mandatory previous pair. -/
def validCancellation : CancellationRecord :=
  { invoice_id := ⟨"89890001K", "12345679/G34", { year := 2024, month := 1, day := 1 }⟩
    previous_invoice_id :=
      some ⟨"89890001K", "12345679/G33", { year := 2023, month := 12, day := 1 }⟩
    previous_hash := some "F7B94CFD8924EDFF273501B01EE5153E4CE8F259766F88CF6ACB8935802A2B97"
    hashed_at := { year := 2024, month := 1, day := 1, hour := 19, minute := 20,
                   second := 40, tzOffset := some 3600 }
    without_prior_record := true }

/-- A healthy breakdown line (`10.00 × 21.00% = 2.10`, declared
`2.12`). -/
def okToleranceLine : BreakdownDetails :=
  { tax_type := "01", regime_type := "01", operation_type := "S1",
    base_amount := "10.00", tax_rate := some "21.00", tax_amount := some "2.12" }

/-- The current wall-clock used to instantiate decoder statements. -/
def decodeEnvFix : DecodeEnv := ⟨{ year := 2025, month := 10, day := 12 }⟩

/-- A submission response whose `RespuestaLinea` carries the given
text as its `FechaExpedicionFactura`. -/
def aeatBadDateTree (s : String) : Element :=
  elC (qn nsSoapenv "Envelope")
    [elC (qn nsSoapenv "Body")
      [elC (qn nsTikR "RespuestaRegFactuSistemaFacturacion")
        [elC (qn nsTikR "RespuestaLinea")
          [elC (qn nsTikR "IDFactura")
            [elT (qn nsTik "IDEmisorFactura") "A00000000",
             elT (qn nsTik "NumSerieFactura") "FACT-001",
             elT (qn nsTik "FechaExpedicionFactura") s]]]]]

/-- A query response whose single item carries the given text as its
`FechaExpedicionFactura`. -/
def queryBadDateTree (s : String) : Element :=
  elC (qn nsSoapenv "Envelope")
    [elC (qn nsSoapenv "Body")
      [elC (qn nsTikRC "RespuestaConsultaFactuSistemaFacturacion")
        [elT (qn nsTikRC "ResultadoConsulta") "ConDatos",
         elC (qn nsTikRC "RegistroRespuestaConsultaFactuSistemaFacturacion")
           [elC (qn nsTikRC "IDFactura")
             [elT (qn nsTik "IDEmisorFactura") "A00000000",
              elT (qn nsTik "NumSerieFactura") "FACT-001",
              elT (qn nsTik "FechaExpedicionFactura") s]]]]]

/-- What the query decoder returns for `queryBadDateTree`: a complete
item whose issue date is the decoder host's current time. -/
def queryBadDateExpected (env : DecodeEnv) : QueryResponse :=
  { year := 0, month := 0, result_type := "ConDatos", has_more_pages := false,
    items := [{ invoice_id := ⟨"A00000000", "FACT-001", env.now⟩ }],
    pagination_key := none }

/-- A submission response containing the root element and a CSV but no
`EstadoEnvio` and no `TiempoEsperaEnvio`. -/
def respNoStatusTree (csvText : String) : Element :=
  elC (qn nsSoapenv "Envelope")
    [elC (qn nsSoapenv "Body")
      [elC (qn nsTikR "RespuestaRegFactuSistemaFacturacion")
        [elT (qn nsTikR "CSV") csvText]]]

/-! ## Theorems for the claims -/

theorem valRev_digitsRevFuel (fuel : Nat) :
    ∀ n : Nat, n < fuel → valRev (digitsRevFuel fuel n) = n := by
  induction fuel with
  | zero => intro n h; omega
  | succ f ih =>
      intro n h
      by_cases h10 : n < 10
      · simp [digitsRevFuel, h10, valRev]
      · have hdiv : n / 10 < f := by omega
        simp only [digitsRevFuel, if_neg h10, valRev, ih (n / 10) hdiv]
        omega
theorem digitsRevFuel_lt10 (fuel : Nat) :
    ∀ n d : Nat, d ∈ digitsRevFuel fuel n → d < 10 := by
  induction fuel with
  | zero => intro n d h; simp [digitsRevFuel] at h
  | succ f ih =>
      intro n d h
      by_cases h10 : n < 10
      · simp [digitsRevFuel, h10] at h; omega
      · simp only [digitsRevFuel, if_neg h10, List.mem_cons] at h
        rcases h with h | h
        · omega
        · exact ih _ _ h
theorem digitsRevFuel_ne_nil (fuel n : Nat) (h : fuel ≠ 0) :
    digitsRevFuel fuel n ≠ [] := by
  cases fuel with
  | zero => omega
  | succ f => simp only [digitsRevFuel]; split <;> simp
theorem digitCh_spec (d : Nat) (h : d < 10) :
    isDigitC (digitCh d) = true ∧ charVal (digitCh d) = d ∧ digitCh d ≠ '-' := by
  interval_cases d <;> exact ⟨rfl, rfl, by decide⟩
theorem renderNatChars_reverse (n : Nat) :
    (renderNatChars n).reverse = (digitsRevFuel (n + 1) n).map digitCh := by
  rw [renderNatChars, ← List.map_reverse, List.reverse_reverse]
theorem renderNatChars_ne_nil (n : Nat) : renderNatChars n ≠ [] := by
  simp [renderNatChars, digitsRevFuel_ne_nil n.succ n (Nat.succ_ne_zero n)]
/-- `parseDecimal2` is a left inverse (on success) of the renderer used
to build two-decimal strings. -/
theorem parseDecimal2_render (maxInt a v : Nat)
    (h : parseDecimal2 maxInt (renderNatChars (a / 100) ++
      '.' :: [digitCh (a % 100 / 10), digitCh (a % 100 % 10)]) = some v) :
    v = a := by
  have hrev : (renderNatChars (a / 100) ++
      '.' :: [digitCh (a % 100 / 10), digitCh (a % 100 % 10)]).reverse =
      digitCh (a % 100 % 10) :: digitCh (a % 100 / 10) :: '.' ::
        (digitsRevFuel (a / 100 + 1) (a / 100)).map digitCh := by
    simp [List.reverse_append, renderNatChars_reverse]
  simp only [parseDecimal2, hrev] at h
  split at h
  · replace h := Option.some.inj h
    have hmap : ((digitsRevFuel (a / 100 + 1) (a / 100)).map digitCh).map charVal =
        digitsRevFuel (a / 100 + 1) (a / 100) := by
      rw [List.map_map]
      have this1 : ∀ d ∈ digitsRevFuel (a / 100 + 1) (a / 100), (charVal ∘ digitCh) d = id d := by
        intro d hd
        exact (digitCh_spec d (digitsRevFuel_lt10 _ _ _ hd)).2.1
      rw [List.map_congr_left this1, List.map_id]
    have h1 : charVal (digitCh (a % 100 / 10)) = a % 100 / 10 :=
      (digitCh_spec _ (by omega)).2.1
    have h2 : charVal (digitCh (a % 100 % 10)) = a % 100 % 10 :=
      (digitCh_spec _ (by omega)).2.1
    rw [hmap, h1, h2, valRev_digitsRevFuel _ _ (Nat.lt_succ_self _)] at h
    omega
  · exact absurd h (by simp)
/-- `parseAmount` is a left inverse (on success) of `centsToString`:
whenever a rendered cent value parses back, it parses back to itself. -/
theorem parseAmount_centsToString (n v : Int)
    (h : parseAmount (centsToString n) = some v) : v = n := by
  by_cases hn : n < 0
  · rw [centsToString] at h
    simp only [if_pos hn] at h
    rw [parseAmount] at h
    simp only [List.cons_append, List.nil_append] at h
    rw [parseAmountChars, if_pos rfl] at h
    rcases ho : parseDecimal2 12 (renderNatChars (n.natAbs / 100) ++
        '.' :: [digitCh (n.natAbs % 100 / 10), digitCh (n.natAbs % 100 % 10)]) with _ | w
    · rw [ho] at h; simp [negCents] at h
    · rw [ho] at h
      rw [negCents] at h
      have hw := parseDecimal2_render 12 n.natAbs w ho
      have := Option.some.inj h
      omega
  · rw [centsToString] at h
    simp only [if_neg hn, List.nil_append] at h
    rcases List.eq_nil_or_concat (digitsRevFuel (n.natAbs / 100 + 1) (n.natAbs / 100))
      with hd | ⟨L, b, hL⟩
    · exact absurd hd (digitsRevFuel_ne_nil _ _ (Nat.succ_ne_zero _))
    · have hblt : b < 10 := digitsRevFuel_lt10 _ _ _ (by rw [hL]; simp)
      have hrender : renderNatChars (n.natAbs / 100) = digitCh b :: L.reverse.map digitCh := by
        rw [renderNatChars, hL]; simp
      rw [parseAmount] at h
      rw [hrender] at h
      simp only [List.cons_append] at h
      rw [parseAmountChars, if_neg (by simpa using (digitCh_spec b hblt).2.2)] at h
      rw [← List.cons_append, ← hrender] at h
      rcases ho : parseDecimal2 12 (renderNatChars (n.natAbs / 100) ++
          '.' :: [digitCh (n.natAbs % 100 / 10), digitCh (n.natAbs % 100 % 10)]) with _ | w
      · rw [ho] at h; simp [posCents] at h
      · rw [ho] at h
        rw [posCents] at h
        have hw := parseDecimal2_render 12 n.natAbs w ho
        have := Option.some.inj h
        omega
theorem rheCents_shift (q t : Int) (hnt : q % 10000 ≠ 5000) :
    rheCents (q + t * 10000) = rheCents q + t := by
  have h1 : (q + t * 10000) / 10000 = q / 10000 + t :=
    Int.add_mul_ediv_right q t (by norm_num)
  have h2 : (q + t * 10000) % 10000 = q % 10000 := Int.add_mul_emod_self
  simp only [rheCents, h1, h2]
  split_ifs <;> omega
theorem fmtMicro_nonneg (q : Int) (h : 0 ≤ q) :
    fmtMicro q = centsToString (rheCents q) := by
  rw [fmtMicro, if_neg]
  rintro ⟨h1, _⟩; omega

/-- A zoned generation timestamp is formatted with its own offset; the
local-timezone environment plays no part. -/
theorem fmtHashTimestamp_zoned (env : TzEnv) (dt : DateTimeM) (o : Int)
    (h : dt.tzOffset = some o) :
    fmtHashTimestamp env dt = fmtDateTimeBody dt ++ fmtOffset o := by
  rw [fmtHashTimestamp]
  simp only [hashTzOffset, h]

/-- **C1**: for the chain-head registration record of §8 scenario 1
(issuer `A00000000`, number `PRUEBA-0001`, issue date 2025-06-01, type
F2, total tax `2.10`, total `12.10`, no previous pair, generation stamp
`2025-06-01T10:20:30+02:00`), `calculate_hash` returns exactly
`F223F0A84F7D0C701C13C97CF10A1628FF9E46A003DDAEF3A804FBD799D82070`,
whatever the local-timezone environment. -/
theorem c1_chain_head_fingerprint :
    ∀ env : TzEnv, registrationCalculateHash env chainHeadRecord =
      "F223F0A84F7D0C701C13C97CF10A1628FF9E46A003DDAEF3A804FBD799D82070" := by
  intro env
  rw [registrationCalculateHash, registrationHashPayload,
    fmtHashTimestamp_zoned env chainHeadRecord.hashed_at 7200 rfl]
  rfl

/-- **C6**: encoding a cancellation record can never succeed — let alone
emit the `RegistroAnulacion` children the claim lists — because
`_export_cancellation_record` reads `record.issuer_name` (and then
`record.cancellation_type`), attributes `CancellationRecord` does not
declare, so every export raises `AttributeError`. -/
theorem c6_cancellation_export_raises :
    ∀ (env : TzEnv) (sys : ComputerSystem) (r : CancellationRecord),
      exportCancellationRecordXml env sys r = Except.error
        "AttributeError: 'CancellationRecord' object has no attribute 'issuer_name'" := by
  intro env sys r
  rfl

/-- **C9**: for the naive January timestamp hashed by a process whose
current DST flag is on (CET/CEST zone in summer), `calculate_hash`
attaches `+02:00` — the offset selected by `time.localtime()` *now* —
whereas the offset in effect at that instant under the zone's DST rule
is `+01:00`, so the emitted canonical timestamp differs from the one the
spec prescribes. -/
theorem c9_naive_offset_uses_current_dst :
    fmtHashTimestamp envSummerCEST janNaiveStamp = "2025-01-15T10:00:00+02:00" ∧
    fmtOffset (specLocalOffsetAt envSummerCEST cetIsDstAt janNaiveStamp) = "+01:00" ∧
    fmtHashTimestamp envSummerCEST janNaiveStamp ≠
      fmtDateTimeBody janNaiveStamp ++
        fmtOffset (specLocalOffsetAt envSummerCEST cetIsDstAt janNaiveStamp) := by
  refine ⟨rfl, rfl, ?_⟩
  decide

/-- **C10**: a submission response that contains the
`RespuestaRegFactuSistemaFacturacion` root but no `EstadoEnvio` and no
`TiempoEsperaEnvio` decodes without error to status `Incorrecto` and
`wait_seconds = 0`, for any decoder clock and any CSV text. -/
theorem c10_missing_estado_defaults_incorrecto :
    ∀ (env : DecodeEnv) (csvText : String),
      aeatResponseFromXml env (respNoStatusTree csvText) =
        Except.ok { wait_seconds := 0
                    status := "Incorrecto"
                    items := []
                    csv := if csvText = "" then none else some csvText
                    submitted_at := none } := by
  intro env csvText
  rfl

/-- **C7 counterexample**: on a query response whose required invoice
date reads `99-99-2025` (not a `DD-MM-YYYY` date), `QueryResponse.from_xml`
does not raise: it returns a fully constructed item whose issue date is
the decoder host's current time. -/
theorem c7_query_decoder_swallows_bad_date :
    queryResponseFromXml decodeEnvFix (queryBadDateTree "99-99-2025") =
      Except.ok (queryBadDateExpected decodeEnvFix) := by
  rfl

/-- **C7 (amended)**: on responses whose required invoice date text is
non-empty and does not parse as `DD-MM-YYYY`, the submission decoder
raises the structured parse error while the query decoder substitutes
the current time and returns the fully constructed item, for any
decoder clock. -/
theorem c7_amended_only_submission_decoder_raises :
    ∀ (env : DecodeEnv) (s : String), s ≠ "" → parseDDMMYYYY s = none →
      aeatResponseFromXml env (aeatBadDateTree s) =
        Except.error ("Invalid invoice issue date: " ++ s) ∧
      queryResponseFromXml env (queryBadDateTree s) =
        Except.ok (queryBadDateExpected env) := by
  intro env s hs hp
  constructor
  · simp only [aeatResponseFromXml, aeatBadDateTree, parseResponseLinea, findDesc, findPath,
      findAllPath, selPath, Element.descs, descsList, optText, textOrEmpty, elC, elT,
      List.filter, List.flatMap, List.head?, mkInvoiceIdentifierChecked,
      missingAeatRootMsg, qn, nsSoapenv, nsTikR, nsTikRC, nsTik, nsSum1, hp, hs]
    simp [hs, hp, List.mapM.loop, parseResponseLinea, findPath, selPath, optText, textOrEmpty,
      elT, elC, qn, nsTikR, nsTik, nsSum1, mkInvoiceIdentifierChecked, List.filter,
      Except.bind, bind, Except.map, Except.pure, pure]
  · simp only [queryResponseFromXml, queryBadDateTree, queryParseResponseItem, findDesc,
      findPath, findAllPath, selPath, Element.descs, descsList, optText, textOrEmpty,
      textOrNone, tryIsoDateTime, elC, elT, List.filter, List.flatMap, List.head?,
      mkInvoiceIdentifierChecked, missingQueryRootMsg, queryBadDateExpected,
      qn, nsSoapenv, nsTikR, nsTikRC, nsTik, nsSum1, hp, hs]
    simp [hs, hp, queryBadDateExpected, List.mapM.loop, queryParseResponseItem, findPath,
      selPath, findAllPath, optText, textOrEmpty, textOrNone, tryIsoDateTime, elT, elC, qn,
      nsTikRC, nsTik, nsSum1, mkInvoiceIdentifierChecked, invoiceIdentifierOk, isBlank,
      List.filter, Except.bind, bind, Except.map, Except.pure, pure]
    rfl

/-- Witness for **C7 (amended)** at the malformed date `99-99-2025`. -/
theorem c7_amended_only_submission_decoder_raises_witness :
    ("99-99-2025" : String) ≠ "" ∧ parseDDMMYYYY "99-99-2025" = none ∧
    (aeatResponseFromXml decodeEnvFix (aeatBadDateTree "99-99-2025") =
        Except.error ("Invalid invoice issue date: " ++ "99-99-2025") ∧
      queryResponseFromXml decodeEnvFix (queryBadDateTree "99-99-2025") =
        Except.ok (queryBadDateExpected decodeEnvFix)) :=
  ⟨by decide, by rfl,
   c7_amended_only_submission_decoder_raises decodeEnvFix "99-99-2025" (by decide) (by rfl)⟩

/-- **C2**: over all correction markers in `{absent, S, N}` and all
previous-rejection markers in `{absent, S, N, X}`, the validator's
`validate_correction_fields` accepts exactly the combinations the §3
table allows. -/
theorem c2_correction_table :
    ∀ c p : Option String, c ∈ [none, some "S", some "N"] →
      p ∈ [none, some "S", some "N", some "X"] →
      (correctionFieldsOk c p = true ↔ specCorrectionTableAllows c p = true) := by
  intro c p hc hp
  fin_cases hc <;> fin_cases hp <;> decide

/-- Witness for **C2** at `(correction = S, previous_rejection = X)`. -/
theorem c2_correction_table_witness :
    (some "S") ∈ ([none, some "S", some "N"] : List (Option String)) ∧
    (some "X") ∈ ([none, some "S", some "N", some "X"] : List (Option String)) ∧
    (correctionFieldsOk (some "S") (some "X") = true ↔
      specCorrectionTableAllows (some "S") (some "X") = true) :=
  ⟨by decide, by decide, c2_correction_table (some "S") (some "X") (by decide) (by decide)⟩

/-- From `validate_previous_invoice_consistency`, the previous pair is
present or absent as a whole. -/
theorem previousPair_iff (rb : RecordBase) (h : previousPairConsistent rb = true) :
    rb.previous_invoice_id.isSome ↔ rb.previous_hash.isSome := by
  rcases hi : rb.previous_invoice_id <;> rcases hh : rb.previous_hash <;>
    simp_all [previousPairConsistent]

/-- **C5**: every record accepted by the validator has the
previous-identifier and previous-fingerprint fields both present or
both absent, and every accepted cancellation record has both present
(the predicate never consults `without_prior_record`). -/
theorem c5_previous_pair_consistency :
    (∀ (env : TzEnv) (r : RegistrationRecord), registrationValid env r = true →
      (r.previous_invoice_id.isSome ↔ r.previous_hash.isSome)) ∧
    (∀ (env : TzEnv) (c : CancellationRecord), cancellationValid env c = true →
      c.previous_invoice_id.isSome ∧ c.previous_hash.isSome) := by
  constructor
  · intro env r h
    simp only [registrationValid, Bool.and_eq_true] at h
    have hp : previousPairConsistent r.toRecordBase = true := by tauto
    exact previousPair_iff r.toRecordBase hp
  · intro env c h
    simp only [cancellationValid, Bool.and_eq_true] at h
    have he : enforcePreviousInvoice c = true := by tauto
    simpa [enforcePreviousInvoice, Bool.and_eq_true] using he

/-- Witness for **C5**: a valid chain-head registration (pair absent)
and a valid cancellation with `without_prior_record = true` (pair
present). -/
theorem c5_previous_pair_consistency_witness :
    registrationValid envSummerCEST chainHeadRecord = true ∧
    (chainHeadRecord.previous_invoice_id.isSome ↔ chainHeadRecord.previous_hash.isSome) ∧
    cancellationValid envSummerCEST validCancellation = true ∧
    validCancellation.without_prior_record = true ∧
    validCancellation.previous_invoice_id.isSome ∧ validCancellation.previous_hash.isSome :=
  ⟨by rfl,
   c5_previous_pair_consistency.1 envSummerCEST chainHeadRecord (by rfl),
   by rfl, rfl,
   c5_previous_pair_consistency.2 envSummerCEST validCancellation (by rfl)⟩

/-- **C8**: the registration fingerprint depends only on the invoice
identifier (issuer, number, issue date), invoice type, total tax
amount, total amount, previous fingerprint and generation timestamp —
two records agreeing there hash identically whatever their correction
markers, external reference, issuer name, description, recipients or
breakdown. -/
theorem c8_fingerprint_ignores_other_fields :
    ∀ (env : TzEnv) (r1 r2 : RegistrationRecord),
      r1.invoice_id.issuer_id = r2.invoice_id.issuer_id →
      r1.invoice_id.invoice_number = r2.invoice_id.invoice_number →
      r1.invoice_id.issue_date.day = r2.invoice_id.issue_date.day →
      r1.invoice_id.issue_date.month = r2.invoice_id.issue_date.month →
      r1.invoice_id.issue_date.year = r2.invoice_id.issue_date.year →
      r1.invoice_type = r2.invoice_type →
      r1.total_tax_amount = r2.total_tax_amount →
      r1.total_amount = r2.total_amount →
      r1.previous_hash = r2.previous_hash →
      r1.hashed_at = r2.hashed_at →
      registrationCalculateHash env r1 = registrationCalculateHash env r2 := by
  intro env r1 r2 h1 h2 h3 h4 h5 h6 h7 h8 h9 h10
  simp only [registrationCalculateHash, registrationHashPayload, fmtDateDDMMYYYY,
    h1, h2, h3, h4, h5, h6, h7, h8, h9, h10]

/-- Witness for **C8**: the scenario-1 record and a variant differing
in issuer name, description, markers, external reference, recipients
and breakdown produce the same fingerprint. -/
theorem c8_fingerprint_ignores_other_fields_witness :
    chainHeadRecord.description ≠ chainHeadVariant.description ∧
    chainHeadRecord.correction ≠ chainHeadVariant.correction ∧
    chainHeadRecord.previous_rejection ≠ chainHeadVariant.previous_rejection ∧
    chainHeadRecord.external_reference ≠ chainHeadVariant.external_reference ∧
    chainHeadRecord.issuer_name ≠ chainHeadVariant.issuer_name ∧
    chainHeadRecord.recipients ≠ chainHeadVariant.recipients ∧
    chainHeadRecord.breakdown ≠ chainHeadVariant.breakdown ∧
    registrationCalculateHash envSummerCEST chainHeadRecord =
      registrationCalculateHash envSummerCEST chainHeadVariant :=
  ⟨by decide, by decide, by decide, by decide, by decide, by decide, by decide,
   c8_fingerprint_ignores_other_fields envSummerCEST chainHeadRecord chainHeadVariant
     rfl rfl rfl rfl rfl rfl rfl rfl rfl rfl⟩

/-- A string the amount parser accepts is not empty. -/
theorem parseAmount_isSome_ne_empty (s : String) (h : (parseAmount s).isSome) :
    (s == "") = false := by
  by_cases he : s = ""
  · subst he
    simp [parseAmount, parseAmountChars] at h
  · simp [he]

/-- **C4 counterexample**: a record whose single breakdown line is
exempt (its `tax_amount` is absent) passes the whole validator with a
declared `total_tax_amount` of `999.99`, although the sum of the
per-line tax amounts it carries is zero — `validate_totals` returns
early as soon as a line has no tax amount. -/
theorem c4_totals_skipped_when_tax_absent :
    registrationValid envSummerCEST exemptOnlyRecord = true ∧
    (exemptOnlyRecord.breakdown.all fun d => d.tax_amount.isNone) = true ∧
    exemptOnlyRecord.total_tax_amount = "999.99" ∧
    centsToString 0 = "0.00" ∧
    exemptOnlyRecord.total_tax_amount ≠ centsToString 0 :=
  ⟨rfl, rfl, rfl, rfl, by decide⟩

/-- There are at most `k` decimal digits below `10^k`. -/
theorem digitsRevFuel_length_le (fuel : Nat) :
    ∀ n k : Nat, n < fuel → 1 ≤ k → n < 10 ^ k → (digitsRevFuel fuel n).length ≤ k := by
  induction fuel with
  | zero => intro n k h; omega
  | succ f ih =>
      intro n k hf hk hp
      by_cases h10 : n < 10
      · simp only [digitsRevFuel, if_pos h10, List.length_singleton]
        omega
      · have hk2 : 2 ≤ k := by
          by_contra hlt
          have hk1 : k = 1 := by omega
          rw [hk1] at hp
          simp at hp
          omega
        have hdiv_f : n / 10 < f := by omega
        have hdiv_p : n / 10 < 10 ^ (k - 1) := by
          rw [Nat.div_lt_iff_lt_mul (by norm_num : 0 < 10)]
          have hsplit : 10 ^ (k - 1) * 10 = 10 ^ k := by
            rw [← pow_succ]
            congr 1
            omega
          omega
        have hrec := ih (n / 10) (k - 1) hdiv_f (by omega) hdiv_p
        simp only [digitsRevFuel, if_neg h10, List.length_cons]
        omega

/-- The rendered two-decimal string parses back successfully when the
integer part fits in `maxInt` digits. -/
theorem parseDecimal2_render_success (maxInt a : Nat)
    (hlen : (digitsRevFuel (a / 100 + 1) (a / 100)).length ≤ maxInt) :
    parseDecimal2 maxInt (renderNatChars (a / 100) ++
      '.' :: [digitCh (a % 100 / 10), digitCh (a % 100 % 10)]) = some a := by
  have hrev : (renderNatChars (a / 100) ++
      '.' :: [digitCh (a % 100 / 10), digitCh (a % 100 % 10)]).reverse =
      digitCh (a % 100 % 10) :: digitCh (a % 100 / 10) :: '.' ::
        (digitsRevFuel (a / 100 + 1) (a / 100)).map digitCh := by
    simp [List.reverse_append, renderNatChars_reverse]
  have hcond : True ∧
      (digitsRevFuel (a / 100 + 1) (a / 100)).map digitCh ≠ [] ∧
      ((digitsRevFuel (a / 100 + 1) (a / 100)).map digitCh).length ≤ maxInt ∧
      ((digitsRevFuel (a / 100 + 1) (a / 100)).map digitCh).all isDigitC = true ∧
      isDigitC (digitCh (a % 100 / 10)) = true ∧
      isDigitC (digitCh (a % 100 % 10)) = true := by
    refine ⟨trivial, ?_, ?_, ?_, ?_, ?_⟩
    · simp [digitsRevFuel_ne_nil _ _ (Nat.succ_ne_zero _)]
    · simpa using hlen
    · rw [List.all_eq_true]
      intro c hc
      obtain ⟨d, hd, rfl⟩ := List.mem_map.1 hc
      exact (digitCh_spec d (digitsRevFuel_lt10 _ _ _ hd)).1
    · exact (digitCh_spec _ (by omega)).1
    · exact (digitCh_spec _ (by omega)).1
  have hsome : ∃ v, parseDecimal2 maxInt (renderNatChars (a / 100) ++
      '.' :: [digitCh (a % 100 / 10), digitCh (a % 100 % 10)]) = some v := by
    simp only [parseDecimal2, hrev]
    rw [if_pos hcond]
    exact ⟨_, rfl⟩
  obtain ⟨v, hv⟩ := hsome
  rw [hv, parseDecimal2_render maxInt a v hv]

/-- `parseAmount` inverts `centsToString` outright below `10^14`
cents (a 12-digit integer part). -/
theorem parseAmount_centsToString_success (n : Int) (hb : n.natAbs < 10 ^ 14) :
    parseAmount (centsToString n) = some n := by
  have e14 : (10 : Nat) ^ 14 = 100000000000000 := by norm_num
  have e12 : (10 : Nat) ^ 12 = 1000000000000 := by norm_num
  have hlen : (digitsRevFuel (n.natAbs / 100 + 1) (n.natAbs / 100)).length ≤ 12 := by
    apply digitsRevFuel_length_le _ _ 12 (Nat.lt_succ_self _) (by norm_num)
    omega
  by_cases hn : n < 0
  · rw [centsToString]
    simp only [if_pos hn]
    rw [parseAmount]
    simp only [List.cons_append, List.nil_append]
    rw [parseAmountChars, if_pos rfl]
    rw [parseDecimal2_render_success 12 n.natAbs hlen]
    simp only [negCents]
    congr 1
    omega
  · rw [centsToString]
    simp only [if_neg hn, List.nil_append]
    rcases List.eq_nil_or_concat (digitsRevFuel (n.natAbs / 100 + 1) (n.natAbs / 100))
      with hd | ⟨L, b, hL⟩
    · exact absurd hd (digitsRevFuel_ne_nil _ _ (Nat.succ_ne_zero _))
    · have hblt : b < 10 := digitsRevFuel_lt10 _ _ _ (by rw [hL]; simp)
      have hrender : renderNatChars (n.natAbs / 100) = digitCh b :: L.reverse.map digitCh := by
        rw [renderNatChars, hL]; simp
      rw [parseAmount]
      rw [hrender]
      simp only [List.cons_append]
      rw [parseAmountChars, if_neg (by simpa using (digitCh_spec b hblt).2.2)]
      rw [← List.cons_append, ← hrender]
      rw [parseDecimal2_render_success 12 n.natAbs hlen]
      simp only [posCents]
      congr 1
      omega

/-- The per-line tax amounts of a `lineFloatFaithful` breakdown sum to
at most `10^7` cents per line. -/
theorem sumBreakdownCents_bound :
    ∀ (L : List BreakdownDetails) (st sb : Int),
      L.all lineFloatFaithful = true →
      sumBreakdownCents L = some (st, sb) →
      st.natAbs ≤ L.length * 10000000 := by
  intro L
  induction L with
  | nil =>
      intro st sb _ h
      simp only [sumBreakdownCents, Option.some.injEq, Prod.mk.injEq] at h
      simp [← h.1]
  | cons d ds ih =>
      intro st sb hall hsum
      simp only [List.all_cons, Bool.and_eq_true] at hall
      rcases hta : d.tax_amount with _ | ts
      · simp [sumBreakdownCents, hta] at hsum
      · rcases hpt : parseAmount ts with _ | t
        · simp [sumBreakdownCents, hta, hpt] at hsum
        · rcases hpb : parseAmount d.base_amount with _ | b
          · simp [sumBreakdownCents, hta, hpt, hpb] at hsum
          · rcases hrec : sumBreakdownCents ds with _ | p
            · simp [sumBreakdownCents, hta, hpt, hpb, hrec] at hsum
            · rcases p with ⟨st', sb'⟩
              simp only [sumBreakdownCents, hta, hpt, hpb, hrec,
                Option.some.injEq, Prod.mk.injEq] at hsum
              have hl := hall.1
              simp only [lineFloatFaithful, hta, hpt, Bool.and_eq_true,
                decide_eq_true_eq] at hl
              have hl2 := hl.2
              have hbnd := ih st' sb' hall.2 hrec
              simp only [List.length_cons]
              omega

/-- **C4 (amended)**: for every accepted registration record whose
breakdown lines all carry parseable base and tax amounts (so
`sumBreakdownCents` succeeds) within the float-faithful per-line domain
(`lineFloatFaithful`: at most `10^7` cents each, no half-cent-tie or
whole-cent product), the declared `total_tax_amount` parses to exactly
the cent-sum of the per-line tax amounts — no tolerance. -/
theorem c4_amended_total_tax_exact :
    ∀ (env : TzEnv) (r : RegistrationRecord) (st sb : Int),
      registrationValid env r = true →
      sumBreakdownCents r.breakdown = some (st, sb) →
      r.breakdown.all lineFloatFaithful = true →
      parseAmount r.total_tax_amount = some st := by
  intro env r st sb hv hs hf
  simp only [registrationValid, Bool.and_eq_true] at hv
  have ht : validateTotals r = true := by tauto
  have hlen : decide (1 ≤ r.breakdown.length) = true := by tauto
  have hlen12 : decide (r.breakdown.length ≤ 12) = true := by tauto
  have htt : (parseAmount r.total_tax_amount).isSome = true := by tauto
  have hta : (parseAmount r.total_amount).isSome = true := by tauto
  have h1 : r.breakdown.isEmpty = false := by
    rcases hb : r.breakdown with _ | _
    · rw [hb] at hlen; simp at hlen
    · simp [hb]
  have h2 := parseAmount_isSome_ne_empty _ htt
  have h3 := parseAmount_isSome_ne_empty _ hta
  rw [validateTotals, if_neg (by simp [h1, h2, h3]), hs] at ht
  simp only [Bool.and_eq_true] at ht
  have hm := ht.1
  simp only [matchesExpectedCents, Bool.or_eq_true, Bool.and_eq_true, beq_iff_eq] at hm
  have hstb : st.natAbs ≤ r.breakdown.length * 10000000 := sumBreakdownCents_bound _ _ _ hf hs
  have hst14 : st.natAbs < 10 ^ 14 := by
    simp only [decide_eq_true_eq] at hlen12
    have e14 : (10 : Nat) ^ 14 = 100000000000000 := by norm_num
    omega
  rcases hm with hm | ⟨hz, hm⟩
  · rw [hm, parseAmount_centsToString_success st hst14]
  · rw [hm, hz]
    rfl

/-- Witness for **C4 (amended)** on the scenario-1 record
(tax sum 210 cents, base sum 1000 cents, one faithful line). -/
theorem c4_amended_total_tax_exact_witness :
    registrationValid envSummerCEST chainHeadRecord = true ∧
    sumBreakdownCents chainHeadRecord.breakdown = some (210, 1000) ∧
    chainHeadRecord.breakdown.all lineFloatFaithful = true ∧
    parseAmount chainHeadRecord.total_tax_amount = some 210 :=
  ⟨rfl, rfl, rfl,
   c4_amended_total_tax_exact envSummerCEST chainHeadRecord 210 1000 rfl rfl rfl⟩

/-- **C3 counterexample**: the line base `0.10`, rate `21.00`, declared
tax `0.00` is accepted by the full line validator although
`|0.00 − 0.10·21.00/100| = 0.021 > 0.02` (the validator compares
against five formatted candidates, and `0.021 − 0.02` formats to
`0.00`). -/
theorem c3_tolerance_counterexample :
    breakdownDetailsOk badToleranceLine = true ∧
    badToleranceLine.base_amount = "0.10" ∧ parseAmount "0.10" = some 10 ∧
    badToleranceLine.tax_rate = some "21.00" ∧ parseRate "21.00" = some 2100 ∧
    badToleranceLine.tax_amount = some "0.00" ∧ parseAmount "0.00" = some 0 ∧
    ¬ specTaxToleranceOk 10 2100 0 := by
  decide

/-- **C3 (amended)**: away from exact half-cent ties, for products
strictly above `0.02` monetary units and at most `10^12` ticks of
`10^-4` cents (base up to `10^5` units at rate up to `999.99`, where
binary64 evaluation of `base*rate/100` identifies the same candidate
strings), a line whose declared tax amount is the canonical rendering
of `t` cents passes the tax-amount check iff `t` is within two cents of
`base·rate/100` *rounded to a whole cent (half-to-even)* — the
tolerance window is anchored at the rounded product, not the exact
one. -/
theorem c3_amended_window_around_rounded_product :
    ∀ (d : BreakdownDetails) (b : Int) (rn : Nat) (t : Int) (bs rs : String),
      d.base_amount = bs → parseAmount bs = some b →
      d.tax_rate = some rs → parseRate rs = some rn →
      d.tax_amount = some (centsToString t) →
      (parseAmount (centsToString t)).isSome →
      20000 < b * (rn : Int) → b * (rn : Int) ≤ 10 ^ 12 →
      (b * (rn : Int)) % 10000 ≠ 5000 →
      (taxAmountCalcOk d = true ↔ (t - rheCents (b * (rn : Int))).natAbs ≤ 2) := by
  intro d b rn t bs rs hb hbp hr hrp ht htp hdom _hub htie
  simp only [taxAmountCalcOk, hr, ht, hb, hbp, hrp, decide_eq_true_eq]
  have hcand : ∀ tol : Int, tol ∈ ([0, -1, 1, -2, 2] : List Int) →
      fmtMicro (b * (rn : Int) + tol * 10000) =
        centsToString (rheCents (b * (rn : Int)) + tol) := by
    intro tol htol
    have h0 : 0 ≤ b * (rn : Int) + tol * 10000 := by
      fin_cases htol <;> omega
    rw [fmtMicro_nonneg _ h0, rheCents_shift _ tol htie]
  constructor
  · intro hmem
    rw [taxCandidates] at hmem
    obtain ⟨tol, htol, heq⟩ := List.mem_map.1 hmem
    rw [hcand tol htol] at heq
    obtain ⟨v, hv⟩ := Option.isSome_iff_exists.mp htp
    have hv2 : parseAmount (centsToString (rheCents (b * (rn : Int)) + tol)) = some v := by
      rw [heq]; exact hv
    have e1 := parseAmount_centsToString t v hv
    have e2 := parseAmount_centsToString (rheCents (b * (rn : Int)) + tol) v hv2
    fin_cases htol <;> omega
  · intro hle
    rw [taxCandidates]
    rw [List.mem_map]
    have h5 : t - rheCents (b * (rn : Int)) = 0 ∨ t - rheCents (b * (rn : Int)) = -1 ∨
        t - rheCents (b * (rn : Int)) = 1 ∨ t - rheCents (b * (rn : Int)) = -2 ∨
        t - rheCents (b * (rn : Int)) = 2 := by omega
    refine ⟨t - rheCents (b * (rn : Int)), ?_, ?_⟩
    · rcases h5 with h | h | h | h | h <;> simp [h]
    · rw [hcand (t - rheCents (b * (rn : Int))) (by rcases h5 with h | h | h | h | h <;> simp [h])]
      congr 1
      omega

/-- Witness for **C3 (amended)** on the line base `10.00`, rate
`21.00`, declared tax `2.12` (product 2.10, two cents off). -/
theorem c3_amended_window_witness :
    okToleranceLine.base_amount = "10.00" ∧ parseAmount "10.00" = some 1000 ∧
    okToleranceLine.tax_rate = some "21.00" ∧ parseRate "21.00" = some 2100 ∧
    okToleranceLine.tax_amount = some (centsToString 212) ∧
    (parseAmount (centsToString 212)).isSome = true ∧
    (20000 < (1000 : Int) * (2100 : Nat)) ∧ ((1000 : Int) * (2100 : Nat) ≤ 10 ^ 12) ∧
    (((1000 : Int) * (2100 : Nat)) % 10000 ≠ 5000) ∧
    (taxAmountCalcOk okToleranceLine = true ↔
      ((212 : Int) - rheCents ((1000 : Int) * (2100 : Nat))).natAbs ≤ 2) :=
  ⟨rfl, rfl, rfl, rfl, by decide, by decide, by decide, by decide, by decide,
   c3_amended_window_around_rounded_product okToleranceLine 1000 2100 212 "10.00" "21.00"
     rfl rfl rfl rfl (by decide) (by decide) (by decide) (by decide) (by decide)⟩

end Verifactu
